import Mathlib

/-!
# Verification of the tez training harness (`tez/model/model.py`)

This file gives a shallow embedding of the `Model` class of
`src/tez/model/model.py` and proves properties of its operations.

Modelling conventions:
* Python exceptions are an explicit error type `PyErr`; every stateful
  operation runs in the monad `TM` which pairs an `Except PyErr` result with
  the list of framework side effects (`Ev`) performed before returning or
  raising.  The event trace makes "the optimizer was stepped", "a callback
  was dispatched", "the model was touched" and so on observable.
* Opaque collaborators of the host ML framework (the user's module, the
  optimizer, scheduler, samplers, serialized state dicts) are opaque `Nat`
  handles; calls into them are either trace events or abstract functions
  collected in a `Ctx` record.  The forward pass may fail (`Ctx.lossOf`
  returns `Except`), modelling out-of-memory / device errors that the host
  framework raises.
* Losses are rationals (`ℚ`), abstracting framework floating point.  Note
  that a torch tensor divided by the integer 0 silently yields an `inf`
  tensor rather than raising; the rational division used here is likewise
  total (`q / 0 = 0`), and no theorem below depends on the value of a
  division by zero — the zero-divisor failure proved for
  `train_one_step` comes from the Python integer `%` on
  `accumulation_steps`, which does raise `ZeroDivisionError`.
* Python `dict`s are association lists with insert-or-assign semantics
  (`dictSet`), preserving insertion order, and subscript access that raises
  `KeyError` when the key is missing (`dictGet`).
* `tez.enums`, `tez.callbacks.CallbackRunner`, `tez.utils.AverageMeter` and
  the configuration record are code of this repository outside the given
  source file; they are modelled from the spec where indicated.
-/

/-- Modelled from the spec: the coarse "model lifecycle" enum
(train/valid/test/end) of `tez.enums.ModelState`; the string values are the
ones the source compares against (`self._model_state.value == "end"`,
`self.metrics[self._model_state.value]`). -/
inductive ModelState
  | TRAIN
  | VALID
  | TEST
  | END
deriving DecidableEq, Repr

/-- The `.value` string of a lifecycle state, as used by the source. -/
def ModelState.value : ModelState → String
  | .TRAIN => "train"
  | .VALID => "valid"
  | .TEST => "test"
  | .END => "end"

/-- Modelled from the spec: the fine-grained "training-state" enum of
`tez.enums.TrainingState` (epoch/step start/end events) whose transitions
drive callback dispatch. -/
inductive TrainingState
  | TRAIN_START
  | TRAIN_END
  | EPOCH_START
  | EPOCH_END
  | TRAIN_EPOCH_START
  | TRAIN_EPOCH_END
  | VALID_EPOCH_START
  | VALID_EPOCH_END
  | TRAIN_STEP_START
  | TRAIN_STEP_END
  | VALID_STEP_START
  | VALID_STEP_END
deriving DecidableEq, Repr

/-- Python exceptions that the embedded code can raise. -/
inductive PyErr
  | runtimeError (msg : String)
  | unboundLocal (name : String)
  | zeroDivisionError
  | keyError (key : String)
  | attributeError (msg : String)
  | typeErr (msg : String)
deriving DecidableEq, Repr

/-- A `torch.device`-like value.  `load` stores the raw device *string* into
`self.device` (it never wraps it in `torch.device`), which is why a separate
`pyStr` constructor exists: a `torch.device` never compares equal to a plain
string in Python. -/
inductive Dev
  | torchDev (name : String)
  | cudaRank (rank : Int)
  | xlaDev
  | pyStr (name : String)
deriving DecidableEq, Repr

/-- A `torch.utils.data.DataLoader` as far as the harness observes it:
`len(dl)` is `nbatches`, and `dl.batch_size`, the worker count, the sampler
argument and the shuffle flag are recorded from construction.  Python
truthiness of a loader is `len(dl) ≠ 0` (DataLoader has `__len__` and no
`__bool__`). -/
structure Loader where
  nbatches : Nat
  batchSize : Nat
  numWorkers : Nat
  sampler : Option Nat
  shuffle : Bool
deriving DecidableEq, Repr

/-- Python truthiness of an optional data loader (`if self.valid_loader:`):
`None` is falsy, and a loader is truthy iff its length is nonzero. -/
def loaderTruthy : Option Loader → Bool
  | none => false
  | some dl => dl.nbatches ≠ 0

/-- A dataset is opaque; the only thing the harness observes is how many
batches a `DataLoader` over it yields for a given batch size. -/
structure Dataset where
  nbatchesFor : Nat → Nat

/-- Modelled from the spec: `tez.utils.AverageMeter`, a named running-average
accumulator (metrics are "named running-average values"). -/
structure AverageMeter where
  val : ℚ
  avg : ℚ
  sum : ℚ
  count : ℚ
deriving DecidableEq, Repr

/-- A fresh meter (`AverageMeter()` resets everything to zero). -/
def AverageMeter.new : AverageMeter := ⟨0, 0, 0, 0⟩

/-- `meter.update(val, n)`: add `val` weighted by `n` and recompute the
running average. -/
def AverageMeter.update (m : AverageMeter) (v : ℚ) (n : ℚ) : AverageMeter :=
  let s := m.sum + v * n
  let c := m.count + n
  { val := v, sum := s, count := c, avg := s / c }

/-- Python `dict` assignment `d[k] = v`: replace in place if the key exists
(keeping insertion order), otherwise append. -/
def dictSet {α : Type} (d : List (String × α)) (k : String) (v : α) :
    List (String × α) :=
  if (d.lookup k).isSome then
    d.map (fun p => if p.1 = k then (k, v) else p)
  else
    d ++ [(k, v)]

/-- Python `d.update(src)`: assign every entry of `src` into `d`. -/
def dictUpdate {α : Type} (d src : List (String × α)) : List (String × α) :=
  src.foldl (fun acc p => dictSet acc p.1 p.2) d

/-- Python subscript `d[k]`: `KeyError` when absent. -/
def dictGet {α : Type} (d : List (String × α)) (k : String) : Except PyErr α :=
  match d.lookup k with
  | some v => .ok v
  | none => .error (.keyError k)

/-- A metric sub-mapping (name ↦ value). -/
def MDict := List (String × ℚ)
deriving DecidableEq, Repr

/-- The `metrics` field: a dict from lifecycle strings to sub-mappings. -/
def Metrics := List (String × MDict)
deriving DecidableEq, Repr

/-- Framework side effects performed by the harness, in order. -/
inductive Ev
  | assignTrain (v : TrainingState)
  | assignModel (v : ModelState)
  | cbRun (v : TrainingState)
  | modelTo (d : Dev)
  | modelTrainMode
  | modelEvalMode
  | modelZeroGrad
  | optZeroGrad
  | forward (data : Nat) (autocast : Bool)
  | backward (x : ℚ)
  | scalerBackward (x : ℚ)
  | clipGrad (c : ℚ)
  | optStep
  | scalerStep
  | scalerUpdate
  | xmOptStep
  | schedStep (m : Option ℚ)
  | barrier
  | initProcessGroup
  | wrapDP
  | wrapDDP
  | mkDistSampler
  | samplerSetEpoch (e : Nat)
  | mkScaler
  | allGatherLoss
deriving DecidableEq, Repr

/-- The computation monad of the embedding: an `Except PyErr` result paired
with the trace of events that happened before the result (or the raise). -/
def TM (α : Type) : Type := Except PyErr α × List Ev

instance instMonadTM : Monad TM where
  pure a := (Except.ok a, [])
  bind x f :=
    match x.1 with
    | .ok a => ((f a).1, x.2 ++ (f a).2)
    | .error e => (.error e, x.2)

/-- Raise a Python exception. -/
def throwT {α : Type} (e : PyErr) : TM α := (.error e, [])

/-- Emit one framework event, leaving the harness state `s` unchanged. -/
def emitE (s : α) (e : Ev) : TM α := (.ok s, [e])

/-- Run a pure `Except` computation inside `TM`. -/
def liftE {α : Type} (x : Except PyErr α) : TM α := (x, [])

/-- Unwrap an `Option`, raising `e` on `none` (attribute access on `None`,
reads of unassigned locals, iterating `None`, ...). -/
def ofOption {α : Type} (x : Option α) (e : PyErr) : TM α :=
  match x with
  | some a => (.ok a, [])
  | none => (.error e, [])

/-- A value stored under one key of a checkpoint record.  `sdV h` is an
opaque framework state-dict object (model / optimizer / scheduler weights)
identified by its handle. -/
inductive SaveVal
  | sdV (h : Nat)
  | natV (n : Nat)
  | boolV (b : Bool)
  | noneV
deriving DecidableEq, Repr

/-- A serialized Python value, as produced by `save` and consumed by
`load`: either a checkpoint dict or a bare value (the raw weight mapping in
weights-only mode). -/
inductive PyVal
  | dictV (d : List (String × SaveVal))
  | flat (v : SaveVal)
deriving DecidableEq, Repr

/-- The mutable fields of the `Model` dataclass
(`src/tez/model/model.py`, lines 27-55) that the embedded methods read or
write.  Opaque collaborator objects (`model`, `optimizer`, `scheduler`,
samplers) are `Nat` handles; for the user's module we track the handle of
its current weights (`model`) and the device its parameters live on
(`model_device`).  `device_count` is `none` until `_init_tez` assigns the
attribute. -/
structure TezState where
  model : Nat
  model_device : Dev
  train_loader : Option Loader
  valid_loader : Option Loader
  optimizer : Option Nat
  scheduler : Option Nat
  step_scheduler_after : Option String
  step_scheduler_metric : Option String
  current_epoch : Nat
  current_train_step : Nat
  current_valid_step : Nat
  mstate : Option ModelState
  tstate : Option TrainingState
  device : Option Dev
  callback_runner : Bool
  fp16 : Bool
  scaler : Bool
  accumulation_steps : Int
  batch_index : Nat
  metrics : Metrics
  clip_grad_norm : Option ℚ
  using_tpu : Bool
  local_rank : Int
  train_sampler : Option Nat
  valid_sampler : Option Nat
  device_count : Option Nat
deriving DecidableEq, Repr

/-- The dataclass defaults (`Model` class body): counters zero, flags off,
no collaborators attached, `accumulation_steps = 0`, and `metrics`
pre-seeded with the three empty sub-mappings. -/
def initState : TezState where
  model := 0
  model_device := .torchDev "cpu"
  train_loader := none
  valid_loader := none
  optimizer := none
  scheduler := none
  step_scheduler_after := none
  step_scheduler_metric := none
  current_epoch := 0
  current_train_step := 0
  current_valid_step := 0
  mstate := none
  tstate := none
  device := none
  callback_runner := false
  fp16 := false
  scaler := false
  accumulation_steps := 0
  batch_index := 0
  metrics := [("train", []), ("valid", []), ("test", [])]
  clip_grad_norm := none
  using_tpu := false
  local_rank := -1
  train_sampler := none
  valid_sampler := none
  device_count := none

/-- Modelled from the spec: the configuration record accepted by `fit`
("epochs, batch sizes, worker count, device string, gradient-accumulation
steps, gradient-clipping threshold, shuffle flag, precision flag"); exactly
the `args` fields the source reads. -/
structure TezConfig where
  epochs : Nat
  train_batch_size : Nat
  valid_batch_size : Nat
  n_jobs : Int
  accumulation_steps : Int
  clip_grad_norm : Option ℚ
  train_shuffle : Bool
  device : String
  fp16 : Bool
deriving DecidableEq, Repr

/-- The opaque collaborators of the harness: the host environment (CPU
count, CUDA device count, XLA availability), the user model's forward pass
(`lossOf`, which may raise, e.g. out of memory), tensor reductions, the
overridable `fetch_optimizer` / `fetch_scheduler` hooks (the base class
returns `None`; a subclass may return an object), `state_dict()` of
optimizers and schedulers, `torch.load`, and the effect of the callback
list on the coarse lifecycle state.

`cb` is modelled from the spec: `tez.callbacks.CallbackRunner` dispatches
each assigned training-state value to the callback list; callbacks are
external collaborators whose only modelled effect on the harness is an
update of the model-lifecycle state (the early-stopping pattern, which the
epoch loop checks for the value `"end"`). -/
structure Ctx where
  xlaAvailable : Bool
  cpuCount : Nat
  cudaDeviceCount : Nat
  lossOf : Nat → Except PyErr ℚ
  meanQ : ℚ → ℚ
  gatherMeanQ : ℚ → ℚ
  fetchOptimizer : Option Nat
  fetchScheduler : Option Nat
  optSD : Nat → Nat
  schedSD : Nat → Nat
  torchLoad : String → Except PyErr PyVal
  distSampler : Nat
  cb : TrainingState → Option ModelState → Option ModelState

/-- The `model_state` property setter (lines 61-64): records the value and
does nothing else ("run something here in future if needed"). -/
def setModelState (s : TezState) (v : ModelState) : TM TezState :=
  emitE { s with mstate := some v } (.assignModel v)

/-- The `train_state` property setter (lines 70-74): records the value and,
when a callback runner is attached, dispatches it with the value (which in
turn may update the lifecycle state). -/
def setTrainState (ctx : Ctx) (s : TezState) (v : TrainingState) : TM TezState :=
  let s1 := { s with tstate := some v }
  if s1.callback_runner then
    (Except.ok { s1 with mstate := ctx.cb v s1.mstate },
      [.assignTrain v, .cbRun v])
  else
    (Except.ok s1, [.assignTrain v])

/-- `name_to_metric` (lines 76-81): `"current_epoch"` reads the counter;
any other name is split at the first underscore into a lifecycle key and a
metric key and looked up in `metrics` (raising `KeyError` when absent). -/
def name_to_metric (s : TezState) (metric_name : String) : Except PyErr ℚ :=
  if metric_name = "current_epoch" then .ok (s.current_epoch : ℚ)
  else
    let parts := metric_name.splitOn "_"
    let v_1 := parts.headD ""
    let v_2 := String.intercalate "_" parts.tail
    match (dictGet s.metrics v_1 : Except PyErr MDict) with
    | .error e => .error e
    | .ok sub => dictGet sub v_2

/-- `update_metrics` (lines 151-153): merge `monitor` into the sub-mapping
selected by the current lifecycle value, then store the running-average
loss under `"loss"`.  Raises `AttributeError` if no lifecycle state is set
(`self._model_state.value` on `None`) and `KeyError` if the value is not a
key of `metrics`. -/
def update_metrics (s : TezState) (losses : AverageMeter) (monitor : MDict) :
    Except PyErr TezState :=
  match s.mstate with
  | none => .error (.attributeError "value")
  | some ms =>
    match (dictGet s.metrics ms.value : Except PyErr MDict) with
    | .error e => .error e
    | .ok sub =>
      let sub := dictSet (dictUpdate sub monitor) "loss" losses.avg
      .ok ({ s with metrics := dictSet s.metrics ms.value sub })

/-- The `if self.local_rank == -1: if self.device_count > 1: loss =
loss.mean()` reduction shared by `model_fn` (lines 104-106) and
`validate_one_step` (lines 142-144). -/
def dp_mean_loss (ctx : Ctx) (s : TezState) (loss0 : ℚ) : TM ℚ :=
  if s.local_rank = -1 then do
    let dc ← ofOption s.device_count (.attributeError "device_count")
    if dc > 1 then pure (ctx.meanQ loss0) else pure loss0
  else pure loss0

/-- `model_fn` (lines 95-107): move the batch to the device, run the user's
module (under autocast when `fp16`), extract the loss, and average it when
running single-process on several CUDA devices.  The logits output is
opaque and unused by the training path, so it is elided.  Reading
`self.device_count` before `_init_tez` assigned it raises
`AttributeError`. -/
def model_fn (ctx : Ctx) (s : TezState) (data : Nat) : TM (ℚ × MDict) := do
  let _ ← emitE s (.forward data s.fp16)
  let loss0 ← liftE (ctx.lossOf data)
  let loss ← dp_mean_loss ctx s loss0
  pure (loss, ([] : MDict))

/-- Python `%` on integers: raises `ZeroDivisionError` on a zero divisor,
otherwise floor-modulus (sign of the divisor). -/
def pyMod (a b : Int) : Except PyErr Int :=
  if b = 0 then .error .zeroDivisionError else .ok (Int.fmod a b)

/-- Lines 110-111: `model.zero_grad()` when `accumulation_steps == 1` on
the first batch. -/
def zero_grad_if_first (s : TezState) : TM TezState :=
  if s.accumulation_steps = 1 ∧ s.batch_index = 0 then
    emitE s .modelZeroGrad
  else pure s

/-- Lines 114-117: the (possibly scaled) backward pass on the divided
loss. -/
def backward_pass (s : TezState) (loss : ℚ) : TM TezState :=
  if s.fp16 then
    if s.scaler then emitE s (.scalerBackward loss)
    else throwT (.attributeError "scale")
  else emitE s (.backward loss)

/-- Lines 118-119: optional gradient clipping. -/
def clip_grad (s : TezState) : TM TezState :=
  match s.clip_grad_norm with
  | some c => emitE s (.clipGrad c)
  | none => pure s

/-- Lines 121-128: the optimizer step (scaled, TPU, or plain). -/
def optimizer_step (s : TezState) : TM TezState :=
  if s.fp16 then do
    let _ ←
      if s.optimizer.isSome then emitE s .scalerStep
      else throwT (.attributeError "scaler step")
    emitE s .scalerUpdate
  else
    if s.using_tpu then
      if s.optimizer.isSome then emitE s .xmOptStep
      else throwT (.attributeError "step")
    else
      if s.optimizer.isSome then emitE s .optStep
      else throwT (.attributeError "step")

/-- Lines 129-135: the per-batch scheduler step, optionally fed a named
metric. -/
def scheduler_batch_step (s : TezState) : TM TezState :=
  if s.scheduler.isSome then
    if s.step_scheduler_after = some "batch" then
      match s.step_scheduler_metric with
      | none => emitE s (.schedStep none)
      | some mname => do
        let v ← liftE (name_to_metric s mname)
        emitE s (.schedStep (some v))
    else pure s
  else pure s

/-- Lines 121-137: the whole accumulation-boundary block — optimizer step,
optional scheduler step, and `model.zero_grad()` on non-initial batches. -/
def apply_opt_step (s : TezState) : TM TezState := do
  let _ ← optimizer_step s
  let _ ← scheduler_batch_step s
  if s.batch_index > 0 then emitE s .modelZeroGrad else pure s

/-- `train_one_step` (lines 109-138).  The state is never modified; only
framework events are emitted.  The loss is divided by `accumulation_steps`
before the backward pass; the optimizer (and, when configured, per-batch
scheduler) step happens exactly when `(batch_index + 1) %
accumulation_steps == 0`.  Calling `.step()` / `.scale()` on an absent
optimizer or scaler raises `AttributeError`, as in Python. -/
def train_one_step (ctx : Ctx) (s : TezState) (data : Nat) :
    TM (ℚ × MDict) := do
  let _ ← zero_grad_if_first s
  let r ← model_fn ctx s data
  let loss := r.1 / (s.accumulation_steps : ℚ)
  let _ ← backward_pass s loss
  let _ ← clip_grad s
  let m ← liftE (pyMod ((s.batch_index : Int) + 1) s.accumulation_steps)
  let _ ← (if m = 0 then apply_opt_step s else pure s)
  pure (loss, r.2)

/-- `validate_one_step` (lines 140-145): forward pass, then (again) average
the loss when single-process multi-GPU. -/
def validate_one_step (ctx : Ctx) (s : TezState) (data : Nat) :
    TM (ℚ × MDict) := do
  let r ← model_fn ctx s data
  let loss ← dp_mean_loss ctx s r.1
  pure (loss, r.2)

/-- `save` (lines 265-290): the persisted value.  With `weights_only` the
raw model weight mapping is written; otherwise a fresh dict is filled, in
order, with the model weights, the optimizer state (or `None`), the
scheduler state (or `None`), the current epoch and the `fp16` flag.
(`xm.save` vs `torch.save` write the same record.) -/
def save (ctx : Ctx) (s : TezState) (weights_only : Bool) : PyVal :=
  let model_state_dict := s.model
  if weights_only then .flat (.sdV model_state_dict)
  else
    let opt_state_dict : SaveVal :=
      match s.optimizer with
      | some o => .sdV (ctx.optSD o)
      | none => .noneV
    let sch_state_dict : SaveVal :=
      match s.scheduler with
      | some c => .sdV (ctx.schedSD c)
      | none => .noneV
    let model_dict : List (String × SaveVal) := []
    let model_dict := dictSet model_dict "state_dict" (.sdV model_state_dict)
    let model_dict := dictSet model_dict "optimizer" opt_state_dict
    let model_dict := dictSet model_dict "scheduler" sch_state_dict
    let model_dict := dictSet model_dict "epoch" (.natV s.current_epoch)
    let model_dict := dictSet model_dict "fp16" (.boolV s.fp16)
    .dictV model_dict

/-- `model.load_state_dict(v)` on a checkpoint entry: accepts a raw
state-dict object and installs its weights; handing it anything else makes
the framework raise (missing / unexpected keys). -/
def asStateDict (v : SaveVal) : Except PyErr Nat :=
  match v with
  | .sdV h => .ok h
  | _ => .error (.runtimeError "Error(s) in loading state_dict")

/-- `model.load_state_dict(v)` on a whole loaded value: a full checkpoint
dict handed to `load_state_dict` makes the framework raise (unexpected
keys). -/
def asStateDictTop (v : PyVal) : Except PyErr Nat :=
  match v with
  | .flat w => asStateDict w
  | .dictV _ => .error (.runtimeError "Error(s) in loading state_dict")

/-- Lines 293-298 of `load`: the TPU/XLA guard and device selection; off
TPU the raw device *string* is kept. -/
def load_device (ctx : Ctx) (s : TezState) (device : String) :
    TM (TezState × Dev) :=
  if device = "tpu" then
    if ctx.xlaAvailable = false then
      throwT (.runtimeError "XLA is not available")
    else pure ({ s with using_tpu := true }, Dev.xlaDev)
  else pure (s, Dev.pyStr device)

/-- Lines 300-301: move the module when its parameter device differs from
`self.device`. -/
def move_model_if_needed (s : TezState) (d : Dev) : TM TezState :=
  if s.model_device ≠ d then do
    let s ← emitE s (.modelTo d)
    pure { s with model_device := d }
  else pure s

/-- Line 306: `model_dict["state_dict"]` — subscripting the loaded value. -/
def checkpoint_entry (model_dict : PyVal) : TM SaveVal :=
  match model_dict with
  | .dictV d => liftE (dictGet d "state_dict")
  | .flat (.sdV _) => throwT (.keyError "state_dict")
  | .flat _ => throwT (.typeErr "object is not subscriptable")

/-- `load` (lines 292-306): on `device="tpu"` require XLA (raising
`RuntimeError` before anything is touched) and switch to the XLA device;
otherwise `self.device` is set to the raw device *string*.  The module is
moved when its parameter device differs (a `torch.device` never equals a
string, so this always fires off-TPU).  Then the checkpoint is read and
only the model weights are installed — from the record itself with
`weights_only`, else from its `"state_dict"` entry. -/
def load (ctx : Ctx) (s : TezState) (model_path : String)
    (weights_only : Bool) (device : String) : TM TezState := do
  let sd ← load_device ctx s device
  let s := { sd.1 with device := some sd.2 }
  let s ← move_model_if_needed s sd.2
  let model_dict ← liftE (ctx.torchLoad model_path)
  if weights_only then do
    let h ← liftE (asStateDictTop model_dict)
    pure { s with model := h }
  else do
    let entry ← checkpoint_entry model_dict
    let h ← liftE (asStateDict entry)
    pure { s with model := h }

/-- The per-batch metrics loop shared by the epoch functions
(`for m_m in metrics_meter: ...; monitor[m_m] = ...`): update every meter
with the batch's value for its key (raising `KeyError` when the batch
metrics lack it) and build the fresh `monitor` dict of running averages.
Meter keys are unique (they come from a Python dict), so the fresh
`monitor` is simply assembled in iteration order. -/
def metersFold (mmeter : List (String × AverageMeter)) (mets : MDict) (n : ℚ) :
    Except PyErr (List (String × AverageMeter) × MDict) :=
  match mmeter with
  | [] => .ok ([], [])
  | (k, meter) :: rest =>
    match (dictGet mets k : Except PyErr ℚ) with
    | .error e => .error e
    | .ok v =>
      let meter1 := meter.update v n
      match metersFold rest mets n with
      | .error e => .error e
      | .ok rp => .ok ((k, meter1) :: rp.1, (k, meter1.avg) :: rp.2)

/-- The training batch loop of `train_one_epoch` (lines 171-187): for each
batch index, record it in `batch_index`, fire the step events around
`train_one_step`, accumulate the de-scaled loss into the running average,
(re)build the metric meters on the first batch, rebuild `monitor`, and
count the global train step.  The loop-local `monitor` variable starts
unassigned (`none`). -/
def trainBatchLoop (ctx : Ctx) (dl : Loader) :
    List Nat → TezState → AverageMeter → List (String × AverageMeter) →
    Option MDict → TM (TezState × AverageMeter × Option MDict)
  | [], s, losses, _mmeter, monitor => pure (s, losses, monitor)
  | b :: rest, s, losses, mmeter, _monitor => do
    let s := { s with batch_index := b }
    let s ← setTrainState ctx s .TRAIN_STEP_START
    let r ← train_one_step ctx s b
    let s ← setTrainState ctx s .TRAIN_STEP_END
    let losses := losses.update (r.1 * (s.accumulation_steps : ℚ))
      (dl.batchSize : ℚ)
    let mmeter :=
      if b = 0 then r.2.map (fun p => (p.1, AverageMeter.new)) else mmeter
    let fm ← liftE (metersFold mmeter r.2 (dl.batchSize : ℚ))
    let s := { s with current_train_step := s.current_train_step + 1 }
    trainBatchLoop ctx dl rest s losses fm.1 (some fm.2)

/-- Lines 156-157: `train_sampler.set_epoch(current_epoch)` when running
distributed. -/
def sampler_epoch (s : TezState) : TM TezState :=
  if s.local_rank ≠ -1 then do
    let _ ← ofOption s.train_sampler (.attributeError "set_epoch")
    emitE s (.samplerSetEpoch s.current_epoch)
  else pure s

/-- Lines 160-161: the distributed barrier before training. -/
def barrier_if_dist (s : TezState) : TM TezState :=
  if s.local_rank ≠ -1 then emitE s .barrier else pure s

/-- Lines 165-166: `optimizer.zero_grad()` when accumulating over several
batches. -/
def opt_zero_if_accum (s : TezState) : TM TezState :=
  if s.accumulation_steps > 1 then do
    let _ ← ofOption s.optimizer (.attributeError "zero_grad")
    emitE s .optZeroGrad
  else pure s

/-- `train_one_epoch` (lines 155-192): distributed sampler epoch-setting
and barrier when running distributed, switch the module to train mode, set
the lifecycle state, optionally zero the optimizer when accumulating, run
the batch loop, and publish the running averages via `update_metrics`
(which reads the loop-local `monitor`, unassigned — `UnboundLocalError` —
when the loader was empty). -/
def train_one_epoch (ctx : Ctx) (s : TezState) (dl : Loader) :
    TM (TezState × ℚ) := do
  let s ← sampler_epoch s
  let s ← emitE s .modelTrainMode
  let s ← barrier_if_dist s
  let s ← setModelState s .TRAIN
  let losses := AverageMeter.new
  let s ← opt_zero_if_accum s
  let r ← trainBatchLoop ctx dl (List.range dl.nbatches) s losses [] none
  let s := r.1
  let losses := r.2.1
  let monitor ← ofOption r.2.2 (.unboundLocal "monitor")
  let s ← liftE (update_metrics s losses monitor)
  pure (s, losses.avg)

/-- Lines 206-210: the distributed barrier / all-gather / mean reduction of
the validation loss. -/
def gather_valid_loss (ctx : Ctx) (s : TezState) (loss : ℚ) :
    TM (TezState × ℚ) :=
  if s.local_rank ≠ -1 then do
    let s ← emitE s .barrier
    let s ← emitE s .allGatherLoss
    pure (s, ctx.gatherMeanQ loss)
  else pure (s, loss)

/-- The validation batch loop of `validate_one_epoch` (lines 202-222):
step events around a no-grad `validate_one_step`, with a barrier /
all-gather / mean reduction when distributed, then the same running-average
bookkeeping (without the accumulation rescaling and without touching
`batch_index`). -/
def validBatchLoop (ctx : Ctx) (dl : Loader) :
    List Nat → TezState → AverageMeter → List (String × AverageMeter) →
    Option MDict → TM (TezState × AverageMeter × Option MDict)
  | [], s, losses, _mmeter, monitor => pure (s, losses, monitor)
  | b :: rest, s, losses, mmeter, _monitor => do
    let s ← setTrainState ctx s .VALID_STEP_START
    let r ← validate_one_step ctx s b
    let sl ← gather_valid_loss ctx s r.1
    let s := sl.1
    let s ← setTrainState ctx s .VALID_STEP_END
    let losses := losses.update sl.2 (dl.batchSize : ℚ)
    let mmeter :=
      if b = 0 then r.2.map (fun p => (p.1, AverageMeter.new)) else mmeter
    let fm ← liftE (metersFold mmeter r.2 (dl.batchSize : ℚ))
    let s := { s with current_valid_step := s.current_valid_step + 1 }
    validBatchLoop ctx dl rest s losses fm.1 (some fm.2)

/-- `validate_one_epoch` (lines 194-226): eval mode, lifecycle state VALID,
the validation batch loop, then `update_metrics` (again reading the
loop-local `monitor`). -/
def validate_one_epoch (ctx : Ctx) (s : TezState) (dl : Loader) :
    TM (TezState × ℚ) := do
  let s ← emitE s .modelEvalMode
  let s ← setModelState s .VALID
  let losses := AverageMeter.new
  let r ← validBatchLoop ctx dl (List.range dl.nbatches) s losses [] none
  let s := r.1
  let losses := r.2.1
  let monitor ← ofOption r.2.2 (.unboundLocal "monitor")
  let s ← liftE (update_metrics s losses monitor)
  pure (s, losses.avg)

/-- Lines 332-347: single-process `DataParallel` wrapping, or process-group
initialization, `DistributedDataParallel` wrapping and distributed-sampler
creation. -/
def wrap_model_dist (ctx : Ctx) (s : TezState) : TM TezState :=
  if s.local_rank = -1 then
    if ctx.cudaDeviceCount > 1 then emitE s .wrapDP else pure s
  else do
    let s ← emitE s .initProcessGroup
    let s ← emitE s .wrapDDP
    if s.train_sampler = none then do
      let s ← emitE s .mkDistSampler
      pure { s with train_sampler := some ctx.distSampler }
    else pure s

/-- Lines 349-357: build the train loader when none is attached, reading
the `n_jobs` local (`UnboundLocalError` when it was never assigned). -/
def build_train_loader (ctx : Ctx) (s : TezState) (args : TezConfig)
    (train_dataset : Dataset) (train_sampler : Option Nat)
    (n_jobs : Option Nat) : TM TezState :=
  if s.train_loader = none then do
    let nj ← ofOption n_jobs (.unboundLocal "n_jobs")
    pure { s with train_loader := some {
      nbatches := train_dataset.nbatchesFor args.train_batch_size,
      batchSize := args.train_batch_size,
      numWorkers := nj,
      sampler := train_sampler,
      shuffle := if train_sampler = none then args.train_shuffle
                 else false } }
  else pure s

/-- Lines 358-367: build the valid loader when none is attached and a
validation dataset was given; note the `shuffle` expression tests the
*train* sampler, as in the source. -/
def build_valid_loader (ctx : Ctx) (s : TezState) (args : TezConfig)
    (valid_dataset : Option Dataset) (train_sampler valid_sampler : Option Nat)
    (n_jobs : Option Nat) : TM TezState :=
  if s.valid_loader = none then
    match valid_dataset with
    | some vd => do
      let nj ← ofOption n_jobs (.unboundLocal "n_jobs")
      pure { s with valid_loader := some {
        nbatches := vd.nbatchesFor args.valid_batch_size,
        batchSize := args.valid_batch_size,
        numWorkers := nj,
        sampler := valid_sampler,
        shuffle := if train_sampler = none then args.train_shuffle
                   else false } }
    | none => pure s
  else pure s

/-- Lines 369-370: install the optimizer-fetching hook's result when no
optimizer is attached. -/
def attach_default_optimizer (ctx : Ctx) (s : TezState) : TezState :=
  if s.optimizer = none then { s with optimizer := ctx.fetchOptimizer }
  else s

/-- Lines 372-373: install the scheduler-fetching hook's result when no
scheduler is attached. -/
def attach_default_scheduler (ctx : Ctx) (s : TezState) : TezState :=
  if s.scheduler = none then { s with scheduler := ctx.fetchScheduler }
  else s

/-- Lines 376-377: create the gradient scaler when mixed precision is on. -/
def make_scaler (s : TezState) : TM TezState :=
  if s.fp16 then do
    let s ← emitE s .mkScaler
    pure { s with scaler := true }
  else pure s

/-- `_init_tez` (lines 308-380).  Note the `n_jobs` slip: the local
variable is assigned only when `args.n_jobs == -1`; reading it for loader
construction with any other worker count raises `UnboundLocalError`.  Also
note that the loaders are built with the *parameter* samplers, not the
(possibly just created) `self.train_sampler`. -/
def _init_tez (ctx : Ctx) (s : TezState) (args : TezConfig)
    (train_dataset : Dataset) (valid_dataset : Option Dataset)
    (train_sampler valid_sampler : Option Nat)
    (callbacks : Option (List Nat)) : TM TezState := do
  let s := { s with train_sampler := train_sampler,
                    valid_sampler := valid_sampler }
  let _cbs := callbacks.getD []
  let n_jobs : Option Nat :=
    if args.n_jobs = -1 then some ctx.cpuCount else none
  let s := { s with accumulation_steps := args.accumulation_steps,
                    clip_grad_norm := args.clip_grad_norm,
                    device_count := some ctx.cudaDeviceCount }
  let s ← wrap_model_dist ctx s
  let s ← build_train_loader ctx s args train_dataset train_sampler n_jobs
  let s ← build_valid_loader ctx s args valid_dataset train_sampler
    valid_sampler n_jobs
  let s := attach_default_scheduler ctx (attach_default_optimizer ctx s)
  let s := { s with fp16 := args.fp16 }
  let s ← make_scaler s
  let s := { s with callback_runner := true }
  setTrainState ctx s .TRAIN_START

/-- Lines 426-429: the validation phase of one epoch, entered exactly when
`self.valid_loader` is truthy. -/
def valid_phase (ctx : Ctx) (s : TezState) : TM TezState :=
  if loaderTruthy s.valid_loader then do
    let s ← setTrainState ctx s .VALID_EPOCH_START
    let vl ← ofOption s.valid_loader (.typeErr "NoneType is not iterable")
    let r ← validate_one_epoch ctx s vl
    let s := r.1
    setTrainState ctx s .VALID_EPOCH_END
  else pure s

/-- Lines 430-436: the per-epoch scheduler step, optionally fed a named
metric. -/
def scheduler_epoch_step (s : TezState) : TM TezState :=
  if s.scheduler.isSome then
    if s.step_scheduler_after = some "epoch" then
      match s.step_scheduler_metric with
      | none => emitE s (.schedStep none)
      | some mname => do
        let v ← liftE (name_to_metric s mname)
        emitE s (.schedStep (some v))
    else pure s
  else pure s

/-- One iteration of the `fit` epoch loop (lines 422-437): the epoch
events, a mandatory train epoch, a validation epoch exactly when
`self.valid_loader` is truthy, the optional per-epoch scheduler step, and
the closing epoch event. -/
def epochBody (ctx : Ctx) (s : TezState) : TM TezState := do
  let s ← setTrainState ctx s .EPOCH_START
  let s ← setTrainState ctx s .TRAIN_EPOCH_START
  let dl ← ofOption s.train_loader (.typeErr "NoneType is not iterable")
  let r ← train_one_epoch ctx s dl
  let s := r.1
  let s ← setTrainState ctx s .TRAIN_EPOCH_END
  let s ← valid_phase ctx s
  let s ← scheduler_epoch_step s
  setTrainState ctx s .EPOCH_END

/-- The `for _ in range(args.epochs)` loop of `fit` (lines 421-440): after
each epoch body, stop if the lifecycle value is `"end"` (without the epoch
increment), otherwise increment `current_epoch` and continue. -/
def fitEpochs (ctx : Ctx) : Nat → TezState → TM TezState
  | 0, s => pure s
  | n + 1, s => do
    let s ← epochBody ctx s
    let ms ← ofOption s.mstate (.attributeError "value")
    if ms.value = "end" then pure s
    else fitEpochs ctx n { s with current_epoch := s.current_epoch + 1 }

/-- Lines 394-408: device resolution — the XLA guard (with the `fp16`
override) for `"tpu"`, `torch.device(args.device)` or the local-rank CUDA
device for `"cuda*"`, CPU otherwise.  Returns the device, the (possibly
updated) configuration, and whether a TPU is in use. -/
def resolve_device (ctx : Ctx) (s : TezState) (args : TezConfig) :
    TM (Dev × TezConfig × Bool) :=
  if args.device = "tpu" then
    if ctx.xlaAvailable = false then
      throwT (.runtimeError "XLA is not available")
    else pure (Dev.xlaDev, { args with fp16 := false }, true)
  else
    if args.device.startsWith "cuda" then
      if s.local_rank = -1 then
        pure (Dev.torchDev args.device, args, false)
      else pure (Dev.cudaRank s.local_rank, args, false)
    else pure (Dev.torchDev "cpu", args, false)

/-- Line 383 of `fit`: `LOCAL_RANK` from the environment. -/
def fit_pre (s0 : TezState) (envLocalRank : Int) : TezState :=
  { s0 with local_rank := envLocalRank }

/-- Lines 410-414 of `fit`: record the resolved device and the TPU flag. -/
def fit_dev_state (s : TezState) (da : Dev × TezConfig × Bool) : TezState :=
  { s with device := some da.1, using_tpu := s.using_tpu || da.2.2 }

/-- `fit` (lines 382-441): read `LOCAL_RANK` from the environment, resolve
the device — requiring XLA for `"tpu"` (and forcing `args.fp16 = False`
there), `torch.device(args.device)` or the local-rank CUDA device for
`"cuda*"`, CPU otherwise — move the model, run `_init_tez`, then the epoch
loop and the final TRAIN_END event. -/
def fit (ctx : Ctx) (s0 : TezState) (args : TezConfig)
    (train_dataset : Dataset) (valid_dataset : Option Dataset)
    (train_sampler valid_sampler : Option Nat)
    (callbacks : Option (List Nat)) (envLocalRank : Int) : TM TezState := do
  let da ← resolve_device ctx (fit_pre s0 envLocalRank) args
  let s ← emitE (fit_dev_state (fit_pre s0 envLocalRank) da)
    (.modelTo da.1)
  let s ← _init_tez ctx { s with model_device := da.1 } da.2.1
    train_dataset valid_dataset train_sampler valid_sampler callbacks
  let s ← fitEpochs ctx da.2.1.epochs s
  setTrainState ctx s .TRAIN_END

/-! ## Concrete fixtures (used by witnesses and counterexamples) -/

/-- A concrete collaborator context: XLA absent, single GPU, a forward pass
that always yields loss 1, an optimizer available from the hook, identity
reductions, and callbacks that change nothing. -/
def ctxW : Ctx where
  xlaAvailable := false
  cpuCount := 8
  cudaDeviceCount := 1
  lossOf := fun _ => .ok 1
  meanQ := fun q => q
  gatherMeanQ := fun q => q
  fetchOptimizer := some 5
  fetchScheduler := none
  optSD := fun o => o + 100
  schedSD := fun c => c + 200
  torchLoad := fun _ => .ok (.flat .noneV)
  distSampler := 77
  cb := fun _ ms => ms

/-- A one-batch data loader. -/
def tlW : Loader where
  nbatches := 1
  batchSize := 4
  numWorkers := 0
  sampler := none
  shuffle := false

/-- A dataset yielding one batch at any batch size. -/
def dsW : Dataset where
  nbatchesFor := fun _ => 1

/-- A harness state ready to train: pre-built one-batch loaders, an
optimizer attached, `accumulation_steps = 1`. -/
def stW : TezState :=
  { initState with
    train_loader := some tlW
    valid_loader := some tlW
    optimizer := some 5
    accumulation_steps := 1 }

/-- A baseline configuration: one epoch, CPU, no accumulation quirks. -/
def argsW : TezConfig where
  epochs := 1
  train_batch_size := 4
  valid_batch_size := 4
  n_jobs := -1
  accumulation_steps := 1
  clip_grad_norm := none
  train_shuffle := false
  device := "cpu"
  fp16 := false

/-- A state mid-accumulation: `accumulation_steps = 2`, on batch index 1
(so `(1 + 1) % 2 == 0` and the optimizer step fires). -/
def stW2 : TezState :=
  { stW with
    accumulation_steps := 2
    batch_index := 1
    device_count := some 1 }

/-- `stW` with the buggy default `accumulation_steps = 0`. -/
def stZ : TezState :=
  { stW with
    accumulation_steps := 0
    device_count := some 1 }

/-! ## Trace observations -/

/-- The callback-runner invocations in a trace, with their argument. -/
def cbTrace (t : List Ev) : List TrainingState :=
  t.filterMap (fun e => match e with | .cbRun v => some v | _ => none)

/-- The `train_state` assignments in a trace, with the assigned value. -/
def trainAssignTrace (t : List Ev) : List TrainingState :=
  t.filterMap (fun e => match e with | .assignTrain v => some v | _ => none)

/-- How many times `model.train()` ran — once per `train_one_epoch`. -/
def countTrainEpochRuns (t : List Ev) : Nat :=
  t.count .modelTrainMode

/-- How many times `model.eval()` ran — once per `validate_one_epoch`. -/
def countValidEpochRuns (t : List Ev) : Nat :=
  t.count .modelEvalMode

/-- Events that touch the gradient scaler (mixed-precision machinery). -/
def isScalerEv : Ev → Bool
  | .scalerBackward _ => true
  | .scalerStep => true
  | .scalerUpdate => true
  | .mkScaler => true
  | _ => false

/-- The losses handed to a backward pass (plain or scaled). -/
def bwdPayloads (t : List Ev) : List ℚ :=
  t.filterMap (fun e => match e with
    | .backward x => some x
    | .scalerBackward x => some x
    | _ => none)

/-- Events that step the optimizer (plain, scaled, or via `xm`). -/
def isOptStepEv : Ev → Bool
  | .optStep => true
  | .scalerStep => true
  | .xmOptStep => true
  | _ => false

/-- Number of optimizer steps in a trace. -/
def countOptSteps (t : List Ev) : Nat :=
  t.countP (fun e => isOptStepEv e)

/-- Number of scheduler steps in a trace. -/
def countSchedSteps (t : List Ev) : Nat :=
  t.countP (fun e => match e with | .schedStep _ => true | _ => false)

/-- Judgment for callback-dispatch bookkeeping: every callback-runner
invocation in the trace is paired, in order, with a `train_state`
assignment of the same value, and on success the result satisfies `Q`. -/
def BalOK {α : Type} (Q : α → Prop) (x : TM α) : Prop :=
  cbTrace x.2 = trainAssignTrace x.2 ∧ ∀ a, x.1 = Except.ok a → Q a

/-- Pointwise judgment on a computation: every event of the trace
satisfies `P` (also on error paths, whose traces are prefixes), and on
success the result satisfies `Q`. -/
def EvOK {α : Type} (P : Ev → Prop) (Q : α → Prop) (x : TM α) : Prop :=
  (∀ e ∈ x.2, P e) ∧ ∀ a, x.1 = Except.ok a → Q a

/-- The hypotheses on the external callback list used by the epoch-loop
characterization: callbacks do not react to step-level events or to the
final TRAIN_END event (the early-stopping pattern reacts at epoch
boundaries), and they never clear an already-set lifecycle state. -/
def CbTame (cb : TrainingState → Option ModelState → Option ModelState) :
    Prop :=
  (∀ ms, cb .TRAIN_STEP_START ms = ms)
  ∧ (∀ ms, cb .TRAIN_STEP_END ms = ms)
  ∧ (∀ ms, cb .VALID_STEP_START ms = ms)
  ∧ (∀ ms, cb .VALID_STEP_END ms = ms)
  ∧ (∀ ms, cb .TRAIN_END ms = ms)
  ∧ (∀ v m, cb v (some m) ≠ none)


theorem TM.bind_ok {α β : Type} (a : α) (t : List Ev) (f : α → TM β) :
    @Bind.bind TM _ α β (Except.ok a, t) f = ((f a).1, t ++ (f a).2) := rfl

theorem TM.bind_err {α β : Type} (e : PyErr) (t : List Ev) (f : α → TM β) :
    @Bind.bind TM _ α β (Except.error e, t) f = (Except.error e, t) := rfl

theorem TM.pure_eq {α : Type} (a : α) :
    @Pure.pure TM _ α a = (Except.ok a, ([] : List Ev)) := rfl

theorem TM.bind_fst {α β : Type} (x : TM α) (f : α → TM β) :
    @Bind.bind TM _ α β x f =
      ((match x.1 with
        | .ok a => ((f a).1, x.2 ++ (f a).2)
        | .error e => (.error e, x.2)) : TM β) := rfl



/-! ## Combinators for the trace judgments -/

theorem cbTrace_append (t1 t2 : List Ev) :
    cbTrace (t1 ++ t2) = cbTrace t1 ++ cbTrace t2 := by
  simp [cbTrace]

theorem trainAssignTrace_append (t1 t2 : List Ev) :
    trainAssignTrace (t1 ++ t2)
      = trainAssignTrace t1 ++ trainAssignTrace t2 := by
  simp [trainAssignTrace]

theorem evOK_bind {α β : Type} {P : Ev → Prop} (Q : α → Prop)
    {R : β → Prop} {x : TM α} {f : α → TM β} (hx : EvOK P Q x)
    (hf : ∀ a, Q a → EvOK P R (f a)) :
    EvOK P R (@Bind.bind TM _ α β x f) := by
  rcases x with ⟨r, t⟩
  rcases hx with ⟨hp, hq⟩
  cases r with
  | error e =>
    rw [TM.bind_err]
    exact ⟨hp, fun a h => Except.noConfusion h⟩
  | ok a =>
    rw [TM.bind_ok]
    obtain ⟨hpf, hqf⟩ := hf a (hq a rfl)
    refine ⟨?_, fun b hb => hqf b hb⟩
    intro e he
    rcases List.mem_append.mp he with h | h
    · exact hp e h
    · exact hpf e h

theorem evOK_pure {α : Type} {P : Ev → Prop} {Q : α → Prop} (a : α)
    (h : Q a) : EvOK P Q (@Pure.pure TM _ α a) :=
  ⟨fun e he => absurd he (List.not_mem_nil e),
   fun b hb => by cases hb; exact h⟩

theorem evOK_throw {α : Type} {P : Ev → Prop} {Q : α → Prop} (e : PyErr) :
    EvOK P Q (throwT e : TM α) :=
  ⟨fun e he => absurd he (List.not_mem_nil e), fun a h => Except.noConfusion h⟩

theorem evOK_lift {α : Type} {P : Ev → Prop} {Q : α → Prop}
    (x : Except PyErr α) (h : ∀ a, x = .ok a → Q a) :
    EvOK P Q (liftE x) :=
  ⟨fun e he => absurd he (List.not_mem_nil e), h⟩

theorem evOK_ofOpt {α : Type} {P : Ev → Prop} {Q : α → Prop}
    (o : Option α) (e : PyErr) (h : ∀ a, o = some a → Q a) :
    EvOK P Q (ofOption o e) := by
  cases o with
  | none =>
    exact ⟨fun e he => absurd he (List.not_mem_nil e),
      fun a h => Except.noConfusion h⟩
  | some a =>
    exact ⟨fun e he => absurd he (List.not_mem_nil e),
      fun b hb => by cases hb; exact h a rfl⟩

theorem evOK_emit {α : Type} {P : Ev → Prop} {Q : α → Prop} (s : α)
    (ev : Ev) (hev : P ev) (h : Q s) : EvOK P Q (emitE s ev) := by
  refine ⟨?_, fun b hb => by cases hb; exact h⟩
  intro e he
  rcases List.mem_singleton.mp he with rfl
  exact hev

theorem evOK_ite {α : Type} {P : Ev → Prop} {Q : α → Prop} (c : Prop)
    [Decidable c] {x y : TM α} (h1 : c → EvOK P Q x)
    (h2 : ¬c → EvOK P Q y) : EvOK P Q (if c then x else y) := by
  split
  case isTrue h => exact h1 h
  case isFalse h => exact h2 h

theorem balOK_bind {α β : Type} (Q : α → Prop) {R : β → Prop}
    {x : TM α} {f : α → TM β} (hx : BalOK Q x)
    (hf : ∀ a, Q a → BalOK R (f a)) :
    BalOK R (@Bind.bind TM _ α β x f) := by
  rcases x with ⟨r, t⟩
  rcases hx with ⟨hbal, hq⟩
  cases r with
  | error e =>
    rw [TM.bind_err]
    exact ⟨hbal, fun a h => Except.noConfusion h⟩
  | ok a =>
    rw [TM.bind_ok]
    obtain ⟨hbf, hqf⟩ := hf a (hq a rfl)
    refine ⟨?_, fun b hb => hqf b hb⟩
    rw [cbTrace_append, trainAssignTrace_append, hbal, hbf]

theorem balOK_pure {α : Type} {Q : α → Prop} (a : α) (h : Q a) :
    BalOK Q (@Pure.pure TM _ α a) :=
  ⟨rfl, fun b hb => by cases hb; exact h⟩

theorem balOK_throw {α : Type} {Q : α → Prop} (e : PyErr) :
    BalOK Q (throwT e : TM α) :=
  ⟨rfl, fun a h => Except.noConfusion h⟩

theorem balOK_lift {α : Type} {Q : α → Prop} (x : Except PyErr α)
    (h : ∀ a, x = .ok a → Q a) : BalOK Q (liftE x) :=
  ⟨rfl, h⟩

theorem balOK_ofOpt {α : Type} {Q : α → Prop} (o : Option α) (e : PyErr)
    (h : ∀ a, o = some a → Q a) : BalOK Q (ofOption o e) := by
  cases o with
  | none => exact ⟨rfl, fun a h => Except.noConfusion h⟩
  | some a => exact ⟨rfl, fun b hb => by cases hb; exact h a rfl⟩

theorem balOK_ite {α : Type} {Q : α → Prop} (c : Prop) [Decidable c]
    {x y : TM α} (h1 : c → BalOK Q x) (h2 : ¬c → BalOK Q y) :
    BalOK Q (if c then x else y) := by
  split
  case isTrue h => exact h1 h
  case isFalse h => exact h2 h

/-- A computation with no callback-runner events and no `train_state`
assignments in its trace is trivially balanced. -/
theorem balOK_of_evOK {α : Type} {Q : α → Prop} {x : TM α}
    (h : EvOK (fun e => cbTrace [e] = [] ∧ trainAssignTrace [e] = []) Q x) :
    BalOK Q x := by
  have key : ∀ t : List Ev,
      (∀ e ∈ t, cbTrace [e] = [] ∧ trainAssignTrace [e] = []) →
      cbTrace t = trainAssignTrace t := by
    intro t
    induction t with
    | nil => intro _; rfl
    | cons e rest ih =>
      intro hall
      have he := hall e (List.mem_cons_self e rest)
      have h1 : cbTrace (e :: rest) = cbTrace [e] ++ cbTrace rest := by
        simpa using cbTrace_append [e] rest
      have h2 : trainAssignTrace (e :: rest)
          = trainAssignTrace [e] ++ trainAssignTrace rest := by
        simpa using trainAssignTrace_append [e] rest
      rw [h1, h2, he.1, he.2,
        ih (fun e' h' => hall e' (List.mem_cons_of_mem e h'))]
  rcases h with ⟨hp, hq⟩
  exact ⟨key x.2 hp, hq⟩

/-- The `train_state` setter under an attached runner: assign, then
dispatch once with the assigned value. -/
theorem balOK_setTrainState {Q : TezState → Prop} (ctx : Ctx) (s : TezState)
    (v : TrainingState) (hcb : s.callback_runner = true)
    (hq : ∀ s', (setTrainState ctx s v).1 = .ok s' → Q s') :
    BalOK Q (setTrainState ctx s v) := by
  have hcb1 : ({ s with tstate := some v } : TezState).callback_runner
      = true := hcb
  constructor
  · show cbTrace (setTrainState ctx s v).2
      = trainAssignTrace (setTrainState ctx s v).2
    unfold setTrainState
    rw [if_pos hcb1]
    rfl
  · exact hq

theorem evOK_pureT {α : Type} {P : Ev → Prop} (a : α) :
    EvOK P (fun _ => True) (@Pure.pure TM _ α a) :=
  evOK_pure a trivial

theorem evOK_emitT {α : Type} {P : Ev → Prop} (s : α) (ev : Ev)
    (hev : P ev) : EvOK P (fun _ => True) (emitE s ev) :=
  evOK_emit s ev hev trivial

theorem evOK_liftT {α : Type} {P : Ev → Prop} (x : Except PyErr α) :
    EvOK P (fun _ => True) (liftE x) :=
  evOK_lift x (fun _ _ => trivial)

theorem evOK_ofOptT {α : Type} {P : Ev → Prop} (o : Option α)
    (e : PyErr) : EvOK P (fun _ => True) (ofOption o e) :=
  evOK_ofOpt o e (fun _ _ => trivial)

/-! ## Walking lemmas (development) -/

theorem evOK_dp_mean_loss {P : Ev → Prop} (ctx : Ctx) (s : TezState)
    (loss0 : ℚ) : EvOK P (fun _ => True) (dp_mean_loss ctx s loss0) := by
  unfold dp_mean_loss
  refine evOK_ite _ (fun _ => ?_) (fun _ => evOK_pureT _)
  refine evOK_bind (fun _ => True) (evOK_ofOptT _ _) (fun dc _ => ?_)
  exact evOK_ite _ (fun _ => evOK_pureT _) (fun _ => evOK_pureT _)

theorem evOK_model_fn2 {P : Ev → Prop} (ctx : Ctx) (s : TezState) (data : Nat)
    (hfw : P (.forward data s.fp16)) :
    EvOK P (fun _ => True) (model_fn ctx s data) := by
  unfold model_fn
  refine evOK_bind (fun _ => True) (evOK_emitT _ _ hfw) (fun _ _ => ?_)
  refine evOK_bind (fun _ => True) (evOK_liftT _) (fun loss0 _ => ?_)
  exact evOK_bind (fun _ => True) (evOK_dp_mean_loss ctx s loss0)
    (fun loss _ => evOK_pureT _)

theorem evOK_train_one_step2 {P : Ev → Prop} (ctx : Ctx) (s : TezState)
    (data : Nat)
    (hzg : P .modelZeroGrad)
    (hfw : P (.forward data s.fp16))
    (hsb : s.fp16 = true → ∀ x : ℚ, P (.scalerBackward x))
    (hbw : ∀ x : ℚ, P (.backward x))
    (hcl : ∀ c : ℚ, P (.clipGrad c))
    (hsu : s.fp16 = true → P .scalerStep ∧ P .scalerUpdate)
    (hxm : P .xmOptStep) (hop : P .optStep)
    (hsc : ∀ m : Option ℚ, P (.schedStep m)) :
    EvOK P (fun _ => True) (train_one_step ctx s data) := by
  have hzgf : EvOK P (fun _ => True) (zero_grad_if_first s) := by
    unfold zero_grad_if_first
    exact evOK_ite _ (fun _ => evOK_emitT _ _ hzg) (fun _ => evOK_pureT _)
  have hbp : ∀ x : ℚ, EvOK P (fun _ => True) (backward_pass s x) := by
    intro x
    unfold backward_pass
    refine evOK_ite _ (fun hf => ?_) (fun _ => evOK_emitT _ _ (hbw x))
    exact evOK_ite _ (fun _ => evOK_emitT _ _ (hsb hf x))
      (fun _ => evOK_throw _)
  have hcg : EvOK P (fun _ => True) (clip_grad s) := by
    unfold clip_grad
    match s.clip_grad_norm with
    | some c => exact evOK_emitT _ _ (hcl c)
    | none => exact evOK_pureT _
  have hopt : EvOK P (fun _ => True) (optimizer_step s) := by
    unfold optimizer_step
    refine evOK_ite _ (fun hf => ?_) (fun _ => ?_)
    · simp only []
      refine evOK_ite _ (fun _ => ?_) (fun _ => ?_)
      · exact evOK_bind (fun _ => True) (evOK_emitT _ _ (hsu hf).1)
          (fun _ _ => evOK_emitT _ _ (hsu hf).2)
      · exact evOK_bind (fun _ => True) (evOK_throw _)
          (fun _ _ => evOK_emitT _ _ (hsu hf).2)
    · refine evOK_ite _ (fun _ => ?_) (fun _ => ?_)
      · exact evOK_ite _ (fun _ => evOK_emitT _ _ hxm)
          (fun _ => evOK_throw _)
      · exact evOK_ite _ (fun _ => evOK_emitT _ _ hop)
          (fun _ => evOK_throw _)
  have hsch : EvOK P (fun _ => True) (scheduler_batch_step s) := by
    unfold scheduler_batch_step
    refine evOK_ite _ (fun _ => ?_) (fun _ => evOK_pureT _)
    refine evOK_ite _ (fun _ => ?_) (fun _ => evOK_pureT _)
    match s.step_scheduler_metric with
    | none => exact evOK_emitT _ _ (hsc none)
    | some mname =>
      exact evOK_bind (fun _ => True) (evOK_liftT _)
        (fun v _ => evOK_emitT _ _ (hsc (some v)))
  have happ : EvOK P (fun _ => True) (apply_opt_step s) := by
    unfold apply_opt_step
    refine evOK_bind (fun _ => True) hopt (fun _ _ => ?_)
    refine evOK_bind (fun _ => True) hsch (fun _ _ => ?_)
    exact evOK_ite _ (fun _ => evOK_emitT _ _ hzg) (fun _ => evOK_pureT _)
  unfold train_one_step
  refine evOK_bind (fun _ => True) hzgf (fun _ _ => ?_)
  refine evOK_bind (fun _ => True) (evOK_model_fn2 ctx s data hfw)
    (fun r _ => ?_)
  refine evOK_bind (fun _ => True) (hbp _) (fun _ _ => ?_)
  refine evOK_bind (fun _ => True) hcg (fun _ _ => ?_)
  refine evOK_bind (fun _ => True) (evOK_liftT _) (fun m _ => ?_)
  refine evOK_bind (fun _ => True) ?_ (fun _ _ => evOK_pureT _)
  exact evOK_ite _ (fun _ => happ) (fun _ => evOK_pureT _)

theorem evOK_validate_one_step2 {P : Ev → Prop} (ctx : Ctx) (s : TezState)
    (data : Nat) (hfw : P (.forward data s.fp16)) :
    EvOK P (fun _ => True) (validate_one_step ctx s data) := by
  unfold validate_one_step
  refine evOK_bind (fun _ => True) (evOK_model_fn2 ctx s data hfw)
    (fun r _ => ?_)
  exact evOK_bind (fun _ => True) (evOK_dp_mean_loss ctx s r.1)
    (fun _ _ => evOK_pureT _)

theorem setTrainState_frame (ctx : Ctx) (s : TezState) (v : TrainingState) :
    ∀ s', (setTrainState ctx s v).1 = .ok s' →
      s'.callback_runner = s.callback_runner ∧ s'.fp16 = s.fp16
      ∧ s'.scaler = s.scaler := by
  intro s' h
  unfold setTrainState at h
  by_cases hcb : ({ s with tstate := some v } : TezState).callback_runner = true
  · rw [if_pos hcb] at h
    cases h
    exact ⟨rfl, rfl, rfl⟩
  · rw [if_neg hcb] at h
    cases h
    exact ⟨rfl, rfl, rfl⟩

theorem evOK_setTrainState {P : Ev → Prop} (ctx : Ctx) (s : TezState)
    (v : TrainingState) (h1 : P (.assignTrain v)) (h2 : P (.cbRun v)) :
    EvOK P (fun s' => s'.callback_runner = s.callback_runner
      ∧ s'.fp16 = s.fp16 ∧ s'.scaler = s.scaler) (setTrainState ctx s v) := by
  refine ⟨?_, setTrainState_frame ctx s v⟩
  intro e he
  unfold setTrainState at he
  by_cases hcb : ({ s with tstate := some v } : TezState).callback_runner = true
  · rw [if_pos hcb] at he
    have h2' : e = Ev.assignTrain v ∨ e = Ev.cbRun v := by simpa using he
    rcases h2' with rfl | rfl
    · exact h1
    · exact h2
  · rw [if_neg hcb] at he
    rcases List.mem_singleton.mp (by simpa using he) with rfl
    exact h1

theorem evOK_setModelState {P : Ev → Prop} (s : TezState) (v : ModelState)
    (h1 : P (.assignModel v)) :
    EvOK P (fun s' => s'.callback_runner = s.callback_runner
      ∧ s'.fp16 = s.fp16 ∧ s'.scaler = s.scaler) (setModelState s v) := by
  refine ⟨?_, ?_⟩
  · intro e he
    rcases List.mem_singleton.mp (by simpa [setModelState, emitE] using he)
      with rfl
    exact h1
  · intro s' h
    cases h
    exact ⟨rfl, rfl, rfl⟩

theorem update_metrics_frame (s : TezState) (losses : AverageMeter)
    (monitor : MDict) :
    ∀ s', update_metrics s losses monitor = .ok s' →
      s'.callback_runner = s.callback_runner ∧ s'.fp16 = s.fp16
      ∧ s'.scaler = s.scaler := by
  intro s' h
  unfold update_metrics at h
  rcases hms : s.mstate with _ | ms
  · simp only [hms] at h
    exact Except.noConfusion h
  · simp only [hms] at h
    rcases hg : (dictGet s.metrics ms.value : Except PyErr MDict)
      with e | sub
    · simp only [hg] at h
      exact Except.noConfusion h
    · simp only [hg] at h
      cases h
      exact ⟨rfl, rfl, rfl⟩

theorem balOK_train_one_step (ctx : Ctx) (s : TezState) (data : Nat) :
    BalOK (fun _ => True) (train_one_step ctx s data) :=
  balOK_of_evOK (evOK_train_one_step2 ctx s data ⟨rfl, rfl⟩ ⟨rfl, rfl⟩
    (fun _ _ => ⟨rfl, rfl⟩) (fun _ => ⟨rfl, rfl⟩) (fun _ => ⟨rfl, rfl⟩)
    (fun _ => ⟨⟨rfl, rfl⟩, ⟨rfl, rfl⟩⟩) ⟨rfl, rfl⟩ ⟨rfl, rfl⟩
    (fun _ => ⟨rfl, rfl⟩))

theorem balOK_validate_one_step (ctx : Ctx) (s : TezState) (data : Nat) :
    BalOK (fun _ => True) (validate_one_step ctx s data) :=
  balOK_of_evOK (evOK_validate_one_step2 ctx s data ⟨rfl, rfl⟩)

theorem setTrainState_runner (ctx : Ctx) (s : TezState) (v : TrainingState) :
    ∀ s', (setTrainState ctx s v).1 = .ok s' →
      s'.callback_runner = s.callback_runner :=
  fun s' h => ((setTrainState_frame ctx s v) s' h).1

theorem balOK_trainBatchLoop (ctx : Ctx) (dl : Loader) (bs : List Nat) :
    ∀ (s : TezState) (losses : AverageMeter)
      (mm : List (String × AverageMeter)) (mon : Option MDict),
      s.callback_runner = true →
      BalOK (fun r => r.1.callback_runner = true)
        (trainBatchLoop ctx dl bs s losses mm mon) := by
  induction bs with
  | nil =>
    intro s losses mm mon hcb
    exact balOK_pure _ hcb
  | cons b rest ih =>
    intro s losses mm mon hcb
    show BalOK _ (trainBatchLoop ctx dl (b :: rest) s losses mm mon)
    rw [trainBatchLoop]
    refine balOK_bind (fun s1 => s1.callback_runner = true)
      (balOK_setTrainState ctx _ _ hcb
        (fun s' h => by rw [setTrainState_runner ctx _ _ s' h]; exact hcb))
      (fun s1 hs1 => ?_)
    refine balOK_bind (fun _ => True) (balOK_train_one_step ctx s1 b)
      (fun r _ => ?_)
    refine balOK_bind (fun s2 => s2.callback_runner = true)
      (balOK_setTrainState ctx _ _ hs1
        (fun s' h => by rw [setTrainState_runner ctx _ _ s' h]; exact hs1))
      (fun s2 hs2 => ?_)
    refine balOK_bind (fun _ => True) (balOK_lift _ (fun _ _ => trivial))
      (fun fm _ => ?_)
    exact ih _ _ _ _ hs2

/-- Preservation of the runner/precision/scaler components. -/
def QF (s : TezState) : TezState → Prop := fun s' =>
  s'.callback_runner = s.callback_runner ∧ s'.fp16 = s.fp16
  ∧ s'.scaler = s.scaler

theorem QF_rfl (s : TezState) : QF s s := ⟨rfl, rfl, rfl⟩

theorem QF_trans {s1 s2 s3 : TezState} (h12 : QF s1 s2) (h23 : QF s2 s3) :
    QF s1 s3 :=
  ⟨h23.1.trans h12.1, h23.2.1.trans h12.2.1, h23.2.2.trans h12.2.2⟩

theorem evOK_mono {α : Type} {P : Ev → Prop} {Q Q' : α → Prop} {x : TM α}
    (h : EvOK P Q x) (hq : ∀ a, Q a → Q' a) : EvOK P Q' x :=
  ⟨h.1, fun a ha => hq a (h.2 a ha)⟩

theorem balOK_mono {α : Type} {Q Q' : α → Prop} {x : TM α}
    (h : BalOK Q x) (hq : ∀ a, Q a → Q' a) : BalOK Q' x :=
  ⟨h.1, fun a ha => hq a (h.2 a ha)⟩

theorem evOK_setTrainStateQF {P : Ev → Prop} (ctx : Ctx) (s : TezState)
    (v : TrainingState) (h1 : P (.assignTrain v)) (h2 : P (.cbRun v)) :
    EvOK P (QF s) (setTrainState ctx s v) :=
  evOK_setTrainState ctx s v h1 h2

theorem evOK_trainBatchLoop {P : Ev → Prop} (ctx : Ctx) (dl : Loader)
    (bs : List Nat) :
    ∀ (s : TezState) (losses : AverageMeter)
      (mm : List (String × AverageMeter)) (mon : Option MDict),
    (∀ v, P (.assignTrain v)) → (∀ v, P (.cbRun v)) →
    P .modelZeroGrad → (∀ d b, P (.forward d b)) →
    (s.fp16 = true → ∀ x : ℚ, P (.scalerBackward x)) →
    (∀ x : ℚ, P (.backward x)) → (∀ c : ℚ, P (.clipGrad c)) →
    (s.fp16 = true → P .scalerStep ∧ P .scalerUpdate) →
    P .xmOptStep → P .optStep → (∀ m, P (.schedStep m)) →
    EvOK P (fun r => QF s r.1) (trainBatchLoop ctx dl bs s losses mm mon) := by
  induction bs with
  | nil =>
    intro s losses mm mon _ _ _ _ _ _ _ _ _ _ _
    exact evOK_pure _ (QF_rfl s)
  | cons b rest ih =>
    intro s losses mm mon hat hcb hzg hfw hsb hbw hcl hsu hxm hop hsc
    show EvOK P _ (trainBatchLoop ctx dl (b :: rest) s losses mm mon)
    rw [trainBatchLoop]
    refine evOK_bind (QF { s with batch_index := b })
      (evOK_setTrainStateQF ctx _ _ (hat _) (hcb _)) (fun s1 hs1 => ?_)
    have hf1 : s1.fp16 = s.fp16 := hs1.2.1
    refine evOK_bind (fun _ => True)
      (evOK_train_one_step2 ctx s1 b hzg (hfw _ _)
        (fun hft => hsb (hf1 ▸ hft))
        hbw hcl (fun hft => hsu (hf1 ▸ hft)) hxm hop hsc)
      (fun r _ => ?_)
    refine evOK_bind (QF s1)
      (evOK_setTrainStateQF ctx _ _ (hat _) (hcb _)) (fun s2 hs2 => ?_)
    refine evOK_bind (fun _ => True) (evOK_liftT _) (fun fm _ => ?_)
    have hQ12 : QF s s2 := QF_trans hs1 hs2
    have hf2 : s2.fp16 = s.fp16 := hQ12.2.1
    refine evOK_mono
      (ih { s2 with current_train_step := s2.current_train_step + 1 }
        _ _ _ hat hcb hzg hfw
        (fun hft => hsb (by rw [← hf2]; exact hft)) hbw hcl
        (fun hft => hsu (by rw [← hf2]; exact hft)) hxm hop hsc)
      (fun r hr => ?_)
    exact QF_trans hQ12 hr


/-- All pointwise event obligations that a `fit` run can emit, with the
mixed-precision-guarded ones conditioned on the precision flag `fp`. -/
def EvHyps (P : Ev → Prop) (fp : Bool) : Prop :=
  (∀ v, P (.assignTrain v)) ∧ (∀ v, P (.cbRun v))
  ∧ (∀ m, P (.assignModel m))
  ∧ P .modelZeroGrad ∧ (∀ d b, P (.forward d b))
  ∧ (fp = true → ∀ x : ℚ, P (.scalerBackward x))
  ∧ (∀ x : ℚ, P (.backward x)) ∧ (∀ c : ℚ, P (.clipGrad c))
  ∧ (fp = true → P .scalerStep ∧ P .scalerUpdate)
  ∧ P .xmOptStep ∧ P .optStep ∧ (∀ m, P (.schedStep m))
  ∧ (∀ n, P (.samplerSetEpoch n)) ∧ P .modelTrainMode ∧ P .modelEvalMode
  ∧ P .barrier ∧ P .allGatherLoss ∧ P .optZeroGrad

theorem EvHyps_cast {P : Ev → Prop} {fp fp' : Bool} (h : EvHyps P fp)
    (he : fp' = fp) : EvHyps P fp' := by rw [he]; exact h

theorem evOK_gather_valid_loss {P : Ev → Prop} (ctx : Ctx) (s : TezState)
    (loss : ℚ) (hbar : P .barrier) (hag : P .allGatherLoss) :
    EvOK P (fun sl => QF s sl.1) (gather_valid_loss ctx s loss) := by
  unfold gather_valid_loss
  refine evOK_ite _ (fun _ => ?_) (fun _ => evOK_pure _ (QF_rfl s))
  refine evOK_bind (QF s) (evOK_emit _ _ hbar (QF_rfl s)) (fun s2 hs2 => ?_)
  refine evOK_bind (QF s2) (evOK_emit _ _ hag (QF_rfl s2)) (fun s3 hs3 => ?_)
  exact evOK_pure _ (QF_trans hs2 hs3)

theorem evOK_sampler_epoch {P : Ev → Prop} (s : TezState)
    (hsse : ∀ n, P (.samplerSetEpoch n)) :
    EvOK P (QF s) (sampler_epoch s) := by
  unfold sampler_epoch
  refine evOK_ite _ (fun _ => ?_) (fun _ => evOK_pure _ (QF_rfl s))
  refine evOK_bind (fun _ => True) (evOK_ofOptT _ _) (fun _ _ => ?_)
  exact evOK_emit _ _ (hsse _) (QF_rfl s)

theorem evOK_barrier_if_dist {P : Ev → Prop} (s : TezState)
    (hbar : P .barrier) : EvOK P (QF s) (barrier_if_dist s) := by
  unfold barrier_if_dist
  exact evOK_ite _ (fun _ => evOK_emit _ _ hbar (QF_rfl s))
    (fun _ => evOK_pure _ (QF_rfl s))

theorem evOK_opt_zero_if_accum {P : Ev → Prop} (s : TezState)
    (hozg : P .optZeroGrad) : EvOK P (QF s) (opt_zero_if_accum s) := by
  unfold opt_zero_if_accum
  refine evOK_ite _ (fun _ => ?_) (fun _ => evOK_pure _ (QF_rfl s))
  refine evOK_bind (fun _ => True) (evOK_ofOptT _ _) (fun _ _ => ?_)
  exact evOK_emit _ _ (hozg) (QF_rfl s)

theorem evOK_validBatchLoop {P : Ev → Prop} (ctx : Ctx) (dl : Loader)
    (bs : List Nat) :
    ∀ (s : TezState) (losses : AverageMeter)
      (mm : List (String × AverageMeter)) (mon : Option MDict),
    (∀ v, P (.assignTrain v)) → (∀ v, P (.cbRun v)) →
    (∀ d b, P (.forward d b)) → P .barrier → P .allGatherLoss →
    EvOK P (fun r => QF s r.1) (validBatchLoop ctx dl bs s losses mm mon) := by
  induction bs with
  | nil =>
    intro s losses mm mon _ _ _ _ _
    exact evOK_pure _ (QF_rfl s)
  | cons b rest ih =>
    intro s losses mm mon hat hcb hfw hbar hag
    show EvOK P _ (validBatchLoop ctx dl (b :: rest) s losses mm mon)
    rw [validBatchLoop]
    refine evOK_bind (QF s)
      (evOK_setTrainStateQF ctx _ _ (hat _) (hcb _)) (fun s1 hs1 => ?_)
    refine evOK_bind (fun _ => True)
      (evOK_validate_one_step2 ctx s1 b (hfw _ _)) (fun r _ => ?_)
    refine evOK_bind (fun sl => QF s1 sl.1)
      (evOK_gather_valid_loss ctx s1 r.1 hbar hag) (fun sl hsl => ?_)
    refine evOK_bind (QF sl.1)
      (evOK_setTrainStateQF ctx _ _ (hat _) (hcb _)) (fun s2 hs2 => ?_)
    refine evOK_bind (fun _ => True) (evOK_liftT _) (fun fm _ => ?_)
    have hQ : QF s s2 := QF_trans hs1 (QF_trans hsl hs2)
    refine evOK_mono
      (ih { s2 with current_valid_step := s2.current_valid_step + 1 }
        _ _ _ hat hcb hfw hbar hag) (fun r hr => ?_)
    exact QF_trans hQ hr

theorem evOK_train_one_epoch {P : Ev → Prop} (ctx : Ctx) (s : TezState)
    (dl : Loader) (H : EvHyps P s.fp16) :
    EvOK P (fun r => QF s r.1) (train_one_epoch ctx s dl) := by
  obtain ⟨hat, hcb, ham, hzg, hfw, hsb, hbw, hcl, hsu, hxm, hop, hsc,
    hsse, htm, hem, hbar, hag, hozg⟩ := H
  unfold train_one_epoch
  refine evOK_bind (QF s) (evOK_sampler_epoch s hsse) (fun s1 hs1 => ?_)
  refine evOK_bind (QF s1) (evOK_emit _ _ htm (QF_rfl s1)) (fun s2 hs2 => ?_)
  refine evOK_bind (QF s2) (evOK_barrier_if_dist s2 hbar) (fun s3 hs3 => ?_)
  refine evOK_bind (QF s3) (evOK_setModelState s3 _ (ham _))
    (fun s4 hs4 => ?_)
  refine evOK_bind (QF s4) (evOK_opt_zero_if_accum s4 hozg) (fun s5 hs5 => ?_)
  have hQ5 : QF s s5 :=
    QF_trans hs1 (QF_trans hs2 (QF_trans hs3 (QF_trans hs4 hs5)))
  have hf5 : s5.fp16 = s.fp16 := hQ5.2.1
  refine evOK_bind (fun r => QF s5 r.1)
    (evOK_trainBatchLoop ctx dl _ s5 _ _ _ hat hcb hzg hfw
      (fun hft => hsb (hf5 ▸ hft)) hbw hcl
      (fun hft => hsu (hf5 ▸ hft)) hxm hop hsc) (fun r hr => ?_)
  refine evOK_bind (fun _ => True) (evOK_ofOptT _ _) (fun monitor _ => ?_)
  refine evOK_bind (QF r.1)
    (evOK_lift _ (update_metrics_frame r.1 _ monitor)) (fun s6 hs6 => ?_)
  exact evOK_pure _ (QF_trans hQ5 (QF_trans hr hs6))

theorem evOK_validate_one_epoch {P : Ev → Prop} (ctx : Ctx) (s : TezState)
    (dl : Loader) (H : EvHyps P s.fp16) :
    EvOK P (fun r => QF s r.1) (validate_one_epoch ctx s dl) := by
  obtain ⟨hat, hcb, ham, hzg, hfw, hsb, hbw, hcl, hsu, hxm, hop, hsc,
    hsse, htm, hem, hbar, hag, hozg⟩ := H
  unfold validate_one_epoch
  refine evOK_bind (QF s) (evOK_emit _ _ hem (QF_rfl s)) (fun s1 hs1 => ?_)
  refine evOK_bind (QF s1) (evOK_setModelState s1 _ (ham _))
    (fun s2 hs2 => ?_)
  have hQ2 : QF s s2 := QF_trans hs1 hs2
  refine evOK_bind (fun r => QF s2 r.1)
    (evOK_validBatchLoop ctx dl _ s2 _ _ _ hat hcb hfw hbar hag)
    (fun r hr => ?_)
  refine evOK_bind (fun _ => True) (evOK_ofOptT _ _) (fun monitor _ => ?_)
  refine evOK_bind (QF r.1)
    (evOK_lift _ (update_metrics_frame r.1 _ monitor)) (fun s6 hs6 => ?_)
  exact evOK_pure _ (QF_trans hQ2 (QF_trans hr hs6))

theorem evOK_valid_phase {P : Ev → Prop} (ctx : Ctx) (s : TezState)
    (H : EvHyps P s.fp16) : EvOK P (QF s) (valid_phase ctx s) := by
  unfold valid_phase
  refine evOK_ite _ (fun _ => ?_) (fun _ => evOK_pure _ (QF_rfl s))
  refine evOK_bind (QF s)
    (evOK_setTrainStateQF ctx _ _ (H.1 _) (H.2.1 _)) (fun s1 hs1 => ?_)
  refine evOK_bind (fun _ => True) (evOK_ofOptT _ _) (fun vl _ => ?_)
  refine evOK_bind (fun r => QF s1 r.1)
    (evOK_validate_one_epoch ctx s1 vl (EvHyps_cast H hs1.2.1))
    (fun r hr => ?_)
  refine evOK_mono (evOK_setTrainStateQF ctx _ _ (H.1 _) (H.2.1 _))
    (fun s2 hs2 => ?_)
  exact QF_trans hs1 (QF_trans hr hs2)

theorem evOK_scheduler_epoch_step {P : Ev → Prop} (s : TezState)
    (hsc : ∀ m, P (.schedStep m)) :
    EvOK P (QF s) (scheduler_epoch_step s) := by
  unfold scheduler_epoch_step
  refine evOK_ite _ (fun _ => ?_) (fun _ => evOK_pure _ (QF_rfl s))
  refine evOK_ite _ (fun _ => ?_) (fun _ => evOK_pure _ (QF_rfl s))
  match s.step_scheduler_metric with
  | none => exact evOK_emit _ _ (hsc none) (QF_rfl s)
  | some mname =>
    exact evOK_bind (fun _ => True) (evOK_liftT _)
      (fun v _ => evOK_emit _ _ (hsc (some v)) (QF_rfl s))

theorem evOK_epochBody {P : Ev → Prop} (ctx : Ctx) (s : TezState)
    (H : EvHyps P s.fp16) : EvOK P (QF s) (epochBody ctx s) := by
  unfold epochBody
  refine evOK_bind (QF s)
    (evOK_setTrainStateQF ctx _ _ (H.1 _) (H.2.1 _)) (fun s1 hs1 => ?_)
  refine evOK_bind (QF s1)
    (evOK_setTrainStateQF ctx _ _ (H.1 _) (H.2.1 _)) (fun s2 hs2 => ?_)
  refine evOK_bind (fun _ => True) (evOK_ofOptT _ _) (fun dl _ => ?_)
  have hQ2 : QF s s2 := QF_trans hs1 hs2
  refine evOK_bind (fun r => QF s2 r.1)
    (evOK_train_one_epoch ctx s2 dl (EvHyps_cast H hQ2.2.1))
    (fun r hr => ?_)
  refine evOK_bind (QF r.1)
    (evOK_setTrainStateQF ctx _ _ (H.1 _) (H.2.1 _)) (fun s3 hs3 => ?_)
  have hQ3 : QF s s3 := QF_trans hQ2 (QF_trans hr hs3)
  refine evOK_bind (QF s3)
    (evOK_valid_phase ctx s3 (EvHyps_cast H hQ3.2.1)) (fun s4 hs4 => ?_)
  refine evOK_bind (QF s4) (evOK_scheduler_epoch_step s4 H.2.2.2.2.2.2.2.2.2.2.2.1)
    (fun s5 hs5 => ?_)
  refine evOK_mono (evOK_setTrainStateQF ctx _ _ (H.1 _) (H.2.1 _))
    (fun s6 hs6 => ?_)
  exact QF_trans hQ3 (QF_trans hs4 (QF_trans hs5 hs6))

theorem evOK_fitEpochs {P : Ev → Prop} (ctx : Ctx) (n : Nat) :
    ∀ s : TezState, EvHyps P s.fp16 →
      EvOK P (QF s) (fitEpochs ctx n s) := by
  induction n with
  | zero =>
    intro s _
    exact evOK_pure _ (QF_rfl s)
  | succ n ih =>
    intro s H
    show EvOK P _ (fitEpochs ctx (n + 1) s)
    rw [fitEpochs]
    refine evOK_bind (QF s) (evOK_epochBody ctx s H) (fun s1 hs1 => ?_)
    refine evOK_bind (fun _ => True) (evOK_ofOptT _ _) (fun ms _ => ?_)
    refine evOK_ite _ (fun _ => evOK_pure _ hs1) (fun _ => ?_)
    refine evOK_mono
      (ih { s1 with current_epoch := s1.current_epoch + 1 }
        (EvHyps_cast H hs1.2.1)) (fun s2 hs2 => ?_)
    exact QF_trans hs1 hs2

theorem evOK_wrap_model_dist {P : Ev → Prop} (ctx : Ctx) (s : TezState)
    (h1 : P .wrapDP) (h2 : P .initProcessGroup) (h3 : P .wrapDDP)
    (h4 : P .mkDistSampler) : EvOK P (QF s) (wrap_model_dist ctx s) := by
  unfold wrap_model_dist
  refine evOK_ite _ (fun _ => ?_) (fun _ => ?_)
  · exact evOK_ite _ (fun _ => evOK_emit _ _ h1 (QF_rfl s))
      (fun _ => evOK_pure _ (QF_rfl s))
  · refine evOK_bind (QF s) (evOK_emit _ _ h2 (QF_rfl s)) (fun s1 hs1 => ?_)
    refine evOK_bind (QF s1) (evOK_emit _ _ h3 (QF_rfl s1)) (fun s2 hs2 => ?_)
    have hQ2 : QF s s2 := QF_trans hs1 hs2
    refine evOK_ite _ (fun _ => ?_) (fun _ => evOK_pure _ hQ2)
    refine evOK_bind (QF s2) (evOK_emit _ _ h4 (QF_rfl s2)) (fun s3 hs3 => ?_)
    exact evOK_pure _ (QF_trans hQ2 hs3)

theorem evOK_build_train_loader {P : Ev → Prop} (ctx : Ctx) (s : TezState)
    (args : TezConfig) (td : Dataset) (ts : Option Nat) (nj : Option Nat) :
    EvOK P (QF s) (build_train_loader ctx s args td ts nj) := by
  unfold build_train_loader
  refine evOK_ite _ (fun _ => ?_) (fun _ => evOK_pure _ (QF_rfl s))
  refine evOK_bind (fun _ => True) (evOK_ofOptT _ _) (fun n _ => ?_)
  exact evOK_pure _ ⟨rfl, rfl, rfl⟩

theorem evOK_build_valid_loader {P : Ev → Prop} (ctx : Ctx) (s : TezState)
    (args : TezConfig) (vd : Option Dataset) (ts vs : Option Nat)
    (nj : Option Nat) :
    EvOK P (QF s) (build_valid_loader ctx s args vd ts vs nj) := by
  unfold build_valid_loader
  refine evOK_ite _ (fun _ => ?_) (fun _ => evOK_pure _ (QF_rfl s))
  match vd with
  | some d =>
    refine evOK_bind (fun _ => True) (evOK_ofOptT _ _) (fun n _ => ?_)
    exact evOK_pure _ ⟨rfl, rfl, rfl⟩
  | none => exact evOK_pure _ (QF_rfl s)

theorem evOK_make_scaler {P : Ev → Prop} (s : TezState)
    (hmk : s.fp16 = true → P .mkScaler) :
    EvOK P (fun s' => s'.callback_runner = s.callback_runner
      ∧ s'.fp16 = s.fp16 ∧ (s.fp16 = false → s'.scaler = s.scaler))
      (make_scaler s) := by
  unfold make_scaler
  refine evOK_ite _ (fun hf => ?_) (fun _ => evOK_pure _ ⟨rfl, rfl, fun _ => rfl⟩)
  refine evOK_bind (QF s) (evOK_emit _ _ (hmk hf) (QF_rfl s))
    (fun s1 hs1 => ?_)
  refine evOK_pure _ ⟨hs1.1, hs1.2.1, fun hff => ?_⟩
  rw [hf] at hff
  exact Bool.noConfusion hff

theorem attach_default_optimizer_QF (ctx : Ctx) (s : TezState) :
    QF s (attach_default_optimizer ctx s) := by
  unfold attach_default_optimizer
  split <;> exact ⟨rfl, rfl, rfl⟩

theorem attach_default_scheduler_QF (ctx : Ctx) (s : TezState) :
    QF s (attach_default_scheduler ctx s) := by
  unfold attach_default_scheduler
  split <;> exact ⟨rfl, rfl, rfl⟩

theorem evOK_init_tez {P : Ev → Prop} (ctx : Ctx) (s : TezState)
    (args : TezConfig) (td : Dataset) (vd : Option Dataset)
    (ts vs : Option Nat) (cbs : Option (List Nat))
    (hat : ∀ v, P (.assignTrain v)) (hcb : ∀ v, P (.cbRun v))
    (h1 : P .wrapDP) (h2 : P .initProcessGroup) (h3 : P .wrapDDP)
    (h4 : P .mkDistSampler) (hmk : args.fp16 = true → P .mkScaler) :
    EvOK P (fun s' => s'.callback_runner = true ∧ s'.fp16 = args.fp16
      ∧ (args.fp16 = false → s'.scaler = s.scaler))
      (_init_tez ctx s args td vd ts vs cbs) := by
  unfold _init_tez
  refine evOK_bind (QF _) (evOK_wrap_model_dist ctx _ h1 h2 h3 h4)
    (fun s1 hs1 => ?_)
  refine evOK_bind (QF s1) (evOK_build_train_loader ctx s1 _ _ _ _)
    (fun s2 hs2 => ?_)
  refine evOK_bind (QF s2) (evOK_build_valid_loader ctx s2 _ _ _ _ _)
    (fun s3 hs3 => ?_)
  have hQ3 : QF s s3 :=
    QF_trans (QF_trans (QF_trans (QF_rfl s) hs1) hs2) hs3
  have hQb : QF s3
      (attach_default_scheduler ctx (attach_default_optimizer ctx s3)) :=
    QF_trans (attach_default_optimizer_QF ctx s3)
      (attach_default_scheduler_QF ctx _)
  refine evOK_bind (fun s' => s'.callback_runner = s3.callback_runner
      ∧ s'.fp16 = args.fp16 ∧ (args.fp16 = false → s'.scaler = s3.scaler))
    (evOK_mono (evOK_make_scaler _ (fun hf => hmk hf))
      (fun s' h => ⟨h.1.trans hQb.1, h.2.1,
        fun hff => (h.2.2 hff).trans hQb.2.2⟩))
    (fun s4 hs4 => ?_)
  refine evOK_mono (evOK_setTrainStateQF ctx _ _ (hat _) (hcb _))
    (fun s5 hs5 => ?_)
  refine ⟨hs5.1, hs5.2.1.trans hs4.2.1, fun hff => ?_⟩
  exact (hs5.2.2.trans (hs4.2.2 hff)).trans hQ3.2.2

theorem EvHyps_scalerFree (fp : Bool) (hfp : fp = false) :
    EvHyps (fun e => isScalerEv e = false) fp := by
  refine ⟨fun _ => rfl, fun _ => rfl, fun _ => rfl, rfl, fun _ _ => rfl,
    fun h => ?_, fun _ => rfl, fun _ => rfl, fun h => ?_, rfl, rfl,
    fun _ => rfl, fun _ => rfl, rfl, rfl, rfl, rfl, rfl⟩ <;>
  · rw [hfp] at h
    exact Bool.noConfusion h

theorem evOK_fit_scaler_free (ctx : Ctx) (s0 : TezState) (args : TezConfig)
    (td : Dataset) (vd : Option Dataset) (ts vs : Option Nat)
    (cbs : Option (List Nat)) (lr : Int)
    (hdev : args.device = "tpu") (hxla : ctx.xlaAvailable = true) :
    EvOK (fun e => isScalerEv e = false)
      (fun s' => s'.fp16 = false ∧ s'.scaler = s0.scaler)
      (fit ctx s0 args td vd ts vs cbs lr) := by
  have hres : resolve_device ctx (fit_pre s0 lr) args
      = pure (Dev.xlaDev, { args with fp16 := false }, true) := by
    unfold resolve_device
    rw [if_pos hdev, if_neg (by rw [hxla]; exact Bool.noConfusion)]
  unfold fit
  refine evOK_bind
    (fun da => da = (Dev.xlaDev, { args with fp16 := false }, true))
    (by rw [hres]; exact evOK_pure _ rfl) (fun da hda => ?_)
  subst hda
  refine evOK_bind (fun s' => s'.scaler = s0.scaler)
    (evOK_emit _ _ rfl rfl) (fun s2 hs2 => ?_)
  refine evOK_bind (fun s3 => s3.callback_runner = true
      ∧ s3.fp16 = ({ args with fp16 := false } : TezConfig).fp16
      ∧ s3.scaler = s2.scaler) ?_ (fun s3 hs3 => ?_)
  · refine evOK_mono
      (@evOK_init_tez (fun e => isScalerEv e = false) ctx _ _ td vd ts vs cbs
        (fun _ => rfl) (fun _ => rfl)
        rfl rfl rfl rfl (fun h => Bool.noConfusion h))
      (fun s' h => ⟨h.1, h.2.1, h.2.2 rfl⟩)
  · have hf3 : s3.fp16 = false := hs3.2.1
    refine evOK_bind (QF s3)
      (evOK_fitEpochs ctx _ s3 (EvHyps_scalerFree _ hf3)) (fun s4 hs4 => ?_)
    refine evOK_mono
      (evOK_setTrainStateQF ctx _ _ rfl rfl) (fun s5 hs5 => ?_)
    refine ⟨(hs5.2.1.trans hs4.2.1).trans hf3, ?_⟩
    exact (hs5.2.2.trans hs4.2.2).trans (hs3.2.2.trans hs2)

theorem balOK_sampler_epoch (s : TezState) (hcb : s.callback_runner = true) :
    BalOK (fun s' => s'.callback_runner = true) (sampler_epoch s) :=
  balOK_of_evOK (evOK_mono (evOK_sampler_epoch s (fun _ => ⟨rfl, rfl⟩))
    (fun s' h => h.1.trans hcb))

theorem balOK_train_one_epoch (ctx : Ctx) (s : TezState) (dl : Loader)
    (hcb : s.callback_runner = true) :
    BalOK (fun r => r.1.callback_runner = true) (train_one_epoch ctx s dl) := by
  unfold train_one_epoch
  refine balOK_bind (fun s1 => s1.callback_runner = true)
    (balOK_sampler_epoch s hcb) (fun s1 hs1 => ?_)
  refine balOK_bind (fun s2 => s2.callback_runner = true)
    (balOK_of_evOK (evOK_emit _ _ ⟨rfl, rfl⟩ hs1)) (fun s2 hs2 => ?_)
  refine balOK_bind (fun s3 => s3.callback_runner = true)
    (balOK_of_evOK (evOK_mono (evOK_barrier_if_dist s2 ⟨rfl, rfl⟩)
      (fun s' h => h.1.trans hs2))) (fun s3 hs3 => ?_)
  refine balOK_bind (fun s4 => s4.callback_runner = true)
    (balOK_of_evOK (evOK_mono (evOK_setModelState s3 _ ⟨rfl, rfl⟩)
      (fun s' h => h.1.trans hs3))) (fun s4 hs4 => ?_)
  refine balOK_bind (fun s5 => s5.callback_runner = true)
    (balOK_of_evOK (evOK_mono (evOK_opt_zero_if_accum s4 ⟨rfl, rfl⟩)
      (fun s' h => h.1.trans hs4))) (fun s5 hs5 => ?_)
  refine balOK_bind (fun r => r.1.callback_runner = true)
    (balOK_trainBatchLoop ctx dl _ s5 _ _ _ hs5) (fun r hr => ?_)
  refine balOK_bind (fun _ => True) (balOK_ofOpt _ _ (fun _ _ => trivial))
    (fun monitor _ => ?_)
  refine balOK_bind (fun s6 => s6.callback_runner = true)
    (balOK_lift _ (fun s' h =>
      ((update_metrics_frame r.1 _ monitor) s' h).1.trans hr))
    (fun s6 hs6 => ?_)
  exact balOK_pure _ hs6

theorem balOK_validBatchLoop (ctx : Ctx) (dl : Loader) (bs : List Nat) :
    ∀ (s : TezState) (losses : AverageMeter)
      (mm : List (String × AverageMeter)) (mon : Option MDict),
      s.callback_runner = true →
      BalOK (fun r => r.1.callback_runner = true)
        (validBatchLoop ctx dl bs s losses mm mon) := by
  induction bs with
  | nil =>
    intro s losses mm mon hcb
    exact balOK_pure _ hcb
  | cons b rest ih =>
    intro s losses mm mon hcb
    show BalOK _ (validBatchLoop ctx dl (b :: rest) s losses mm mon)
    rw [validBatchLoop]
    refine balOK_bind (fun s1 => s1.callback_runner = true)
      (balOK_setTrainState ctx _ _ hcb
        (fun s' h => by rw [setTrainState_runner ctx _ _ s' h]; exact hcb))
      (fun s1 hs1 => ?_)
    refine balOK_bind (fun _ => True) (balOK_validate_one_step ctx s1 b)
      (fun r _ => ?_)
    refine balOK_bind (fun sl => sl.1.callback_runner = true)
      (balOK_of_evOK (evOK_mono
        (evOK_gather_valid_loss ctx s1 r.1 ⟨rfl, rfl⟩ ⟨rfl, rfl⟩)
        (fun sl h => h.1.trans hs1))) (fun sl hsl => ?_)
    refine balOK_bind (fun s2 => s2.callback_runner = true)
      (balOK_setTrainState ctx _ _ hsl
        (fun s' h => by rw [setTrainState_runner ctx _ _ s' h]; exact hsl))
      (fun s2 hs2 => ?_)
    refine balOK_bind (fun _ => True) (balOK_lift _ (fun _ _ => trivial))
      (fun fm _ => ?_)
    exact ih _ _ _ _ hs2

theorem balOK_validate_one_epoch (ctx : Ctx) (s : TezState) (dl : Loader)
    (hcb : s.callback_runner = true) :
    BalOK (fun r => r.1.callback_runner = true)
      (validate_one_epoch ctx s dl) := by
  unfold validate_one_epoch
  refine balOK_bind (fun s1 => s1.callback_runner = true)
    (balOK_of_evOK (evOK_emit _ _ ⟨rfl, rfl⟩ hcb)) (fun s1 hs1 => ?_)
  refine balOK_bind (fun s2 => s2.callback_runner = true)
    (balOK_of_evOK (evOK_mono (evOK_setModelState s1 _ ⟨rfl, rfl⟩)
      (fun s' h => h.1.trans hs1))) (fun s2 hs2 => ?_)
  refine balOK_bind (fun r => r.1.callback_runner = true)
    (balOK_validBatchLoop ctx dl _ s2 _ _ _ hs2) (fun r hr => ?_)
  refine balOK_bind (fun _ => True) (balOK_ofOpt _ _ (fun _ _ => trivial))
    (fun monitor _ => ?_)
  refine balOK_bind (fun s6 => s6.callback_runner = true)
    (balOK_lift _ (fun s' h =>
      ((update_metrics_frame r.1 _ monitor) s' h).1.trans hr))
    (fun s6 hs6 => ?_)
  exact balOK_pure _ hs6

theorem balOK_valid_phase (ctx : Ctx) (s : TezState)
    (hcb : s.callback_runner = true) :
    BalOK (fun s' => s'.callback_runner = true) (valid_phase ctx s) := by
  unfold valid_phase
  refine balOK_ite _ (fun _ => ?_) (fun _ => balOK_pure _ hcb)
  refine balOK_bind (fun s1 => s1.callback_runner = true)
    (balOK_setTrainState ctx _ _ hcb
      (fun s' h => by rw [setTrainState_runner ctx _ _ s' h]; exact hcb))
    (fun s1 hs1 => ?_)
  refine balOK_bind (fun _ => True) (balOK_ofOpt _ _ (fun _ _ => trivial))
    (fun vl _ => ?_)
  refine balOK_bind (fun r => r.1.callback_runner = true)
    (balOK_validate_one_epoch ctx s1 vl hs1) (fun r hr => ?_)
  exact balOK_setTrainState ctx _ _ hr
    (fun s' h => by rw [setTrainState_runner ctx _ _ s' h]; exact hr)

theorem balOK_scheduler_epoch_step (s : TezState)
    (hcb : s.callback_runner = true) :
    BalOK (fun s' => s'.callback_runner = true)
      (scheduler_epoch_step s) :=
  balOK_of_evOK (evOK_mono (evOK_scheduler_epoch_step s (fun _ => ⟨rfl, rfl⟩))
    (fun s' h => h.1.trans hcb))

theorem balOK_epochBody (ctx : Ctx) (s : TezState)
    (hcb : s.callback_runner = true) :
    BalOK (fun s' => s'.callback_runner = true) (epochBody ctx s) := by
  unfold epochBody
  refine balOK_bind (fun s1 => s1.callback_runner = true)
    (balOK_setTrainState ctx _ _ hcb
      (fun s' h => by rw [setTrainState_runner ctx _ _ s' h]; exact hcb))
    (fun s1 hs1 => ?_)
  refine balOK_bind (fun s2 => s2.callback_runner = true)
    (balOK_setTrainState ctx _ _ hs1
      (fun s' h => by rw [setTrainState_runner ctx _ _ s' h]; exact hs1))
    (fun s2 hs2 => ?_)
  refine balOK_bind (fun _ => True) (balOK_ofOpt _ _ (fun _ _ => trivial))
    (fun dl _ => ?_)
  refine balOK_bind (fun r => r.1.callback_runner = true)
    (balOK_train_one_epoch ctx s2 dl hs2) (fun r hr => ?_)
  refine balOK_bind (fun s3 => s3.callback_runner = true)
    (balOK_setTrainState ctx _ _ hr
      (fun s' h => by rw [setTrainState_runner ctx _ _ s' h]; exact hr))
    (fun s3 hs3 => ?_)
  refine balOK_bind (fun s4 => s4.callback_runner = true)
    (balOK_valid_phase ctx s3 hs3) (fun s4 hs4 => ?_)
  refine balOK_bind (fun s5 => s5.callback_runner = true)
    (balOK_scheduler_epoch_step s4 hs4) (fun s5 hs5 => ?_)
  exact balOK_setTrainState ctx _ _ hs5
    (fun s' h => by rw [setTrainState_runner ctx _ _ s' h]; exact hs5)

theorem balOK_fitEpochs (ctx : Ctx) (n : Nat) :
    ∀ s : TezState, s.callback_runner = true →
      BalOK (fun s' => s'.callback_runner = true) (fitEpochs ctx n s) := by
  induction n with
  | zero =>
    intro s hcb
    exact balOK_pure _ hcb
  | succ n ih =>
    intro s hcb
    show BalOK _ (fitEpochs ctx (n + 1) s)
    rw [fitEpochs]
    refine balOK_bind (fun s1 => s1.callback_runner = true)
      (balOK_epochBody ctx s hcb) (fun s1 hs1 => ?_)
    refine balOK_bind (fun _ => True) (balOK_ofOpt _ _ (fun _ _ => trivial))
      (fun ms _ => ?_)
    refine balOK_ite _ (fun _ => balOK_pure _ hs1) (fun _ => ?_)
    exact ih _ hs1

theorem balOK_init_tez (ctx : Ctx) (s : TezState) (args : TezConfig)
    (td : Dataset) (vd : Option Dataset) (ts vs : Option Nat)
    (cbs : Option (List Nat)) :
    BalOK (fun s' => s'.callback_runner = true)
      (_init_tez ctx s args td vd ts vs cbs) := by
  unfold _init_tez
  refine balOK_bind (fun _ => True)
    (balOK_of_evOK (evOK_mono
      (evOK_wrap_model_dist ctx _ ⟨rfl, rfl⟩ ⟨rfl, rfl⟩ ⟨rfl, rfl⟩
        ⟨rfl, rfl⟩) (fun _ _ => trivial))) (fun s1 _ => ?_)
  refine balOK_bind (fun _ => True)
    (balOK_of_evOK (evOK_mono (evOK_build_train_loader ctx s1 _ _ _ _)
      (fun _ _ => trivial))) (fun s2 _ => ?_)
  refine balOK_bind (fun _ => True)
    (balOK_of_evOK (evOK_mono (evOK_build_valid_loader ctx s2 _ _ _ _ _)
      (fun _ _ => trivial))) (fun s3 _ => ?_)
  refine balOK_bind (fun _ => True)
    (balOK_of_evOK (evOK_mono (evOK_make_scaler _ (fun _ => ⟨rfl, rfl⟩))
      (fun _ _ => trivial))) (fun s4 _ => ?_)
  exact balOK_setTrainState ctx _ _ rfl
    (fun s' h => by rw [setTrainState_runner ctx _ _ s' h])

theorem evOK_resolve_device {P : Ev → Prop} (ctx : Ctx) (s : TezState)
    (args : TezConfig) :
    EvOK P (fun _ => True) (resolve_device ctx s args) := by
  unfold resolve_device
  refine evOK_ite _ (fun _ => ?_) (fun _ => ?_)
  · exact evOK_ite _ (fun _ => evOK_throw _) (fun _ => evOK_pureT _)
  · refine evOK_ite _ (fun _ => ?_) (fun _ => evOK_pureT _)
    exact evOK_ite _ (fun _ => evOK_pureT _) (fun _ => evOK_pureT _)

theorem balOK_fit (ctx : Ctx) (s0 : TezState) (args : TezConfig)
    (td : Dataset) (vd : Option Dataset) (ts vs : Option Nat)
    (cbs : Option (List Nat)) (lr : Int) :
    BalOK (fun _ => True) (fit ctx s0 args td vd ts vs cbs lr) := by
  unfold fit
  refine balOK_bind (fun _ => True)
    (balOK_of_evOK (evOK_resolve_device ctx _ args)) (fun da _ => ?_)
  refine balOK_bind (fun _ => True)
    (balOK_of_evOK (evOK_emitT _ _ ⟨rfl, rfl⟩)) (fun s2 _ => ?_)
  refine balOK_bind (fun s3 => s3.callback_runner = true)
    (balOK_init_tez ctx _ _ td vd ts vs cbs) (fun s3 hs3 => ?_)
  refine balOK_bind (fun s4 => s4.callback_runner = true)
    (balOK_fitEpochs ctx _ s3 hs3) (fun s4 hs4 => ?_)
  exact balOK_setTrainState ctx _ _ hs4 (fun _ _ => trivial)

/-- C5: every assignment to `train_state` with the callback runner attached
records the value and dispatches the runner exactly once with it, and no
other operation reaches the runner: a `model_state` assignment dispatches
nothing, and over a whole `fit` run the runner invocations are, value for
value and in order, exactly the `train_state` assignments. -/
theorem train_state_sole_callback_dispatch :
    (∀ (ctx : Ctx) (s : TezState) (v : TrainingState),
        s.callback_runner = true →
        (setTrainState ctx s v).2 = [.assignTrain v, .cbRun v]
          ∧ (setTrainState ctx s v).1
              = .ok { s with tstate := some v,
                             mstate := ctx.cb v s.mstate })
    ∧ (∀ (s : TezState) (v : ModelState),
        cbTrace (setModelState s v).2 = []
          ∧ (setModelState s v).1 = .ok { s with mstate := some v })
    ∧ (∀ (ctx : Ctx) (s0 : TezState) (args : TezConfig) (td : Dataset)
        (vd : Option Dataset) (ts vs : Option Nat)
        (cbs : Option (List Nat)) (lr : Int),
        cbTrace (fit ctx s0 args td vd ts vs cbs lr).2
          = trainAssignTrace (fit ctx s0 args td vd ts vs cbs lr).2) := by
  refine ⟨fun ctx s v hcb => ?_, fun s v => ⟨rfl, rfl⟩,
    fun ctx s0 args td vd ts vs cbs lr =>
      (balOK_fit ctx s0 args td vd ts vs cbs lr).1⟩
  unfold setTrainState
  rw [if_pos hcb]
  exact ⟨rfl, rfl⟩

theorem train_state_sole_callback_dispatch_witness :
    (setTrainState ctxW { initState with callback_runner := true }
        .EPOCH_START).2
      = [.assignTrain .EPOCH_START, .cbRun .EPOCH_START] :=
  (train_state_sole_callback_dispatch.1 ctxW
    { initState with callback_runner := true } .EPOCH_START rfl).1

/-- C8: a `fit` run that requests the `"tpu"` device while XLA is available
forces the mixed-precision flag off for the whole run, whatever the
configuration's `fp16` field said: no gradient-scaler machinery is ever
touched (no scaler creation, scaled backward, scaler step or update appears
in the trace), and on success the final state has `fp16 = false` with the
scaler field untouched. -/
theorem fit_tpu_forces_fp32 (ctx : Ctx) (s0 : TezState) (args : TezConfig)
    (td : Dataset) (vd : Option Dataset) (ts vs : Option Nat)
    (cbs : Option (List Nat)) (lr : Int)
    (hdev : args.device = "tpu") (hxla : ctx.xlaAvailable = true) :
    (∀ e ∈ (fit ctx s0 args td vd ts vs cbs lr).2, isScalerEv e = false)
    ∧ ∀ s', (fit ctx s0 args td vd ts vs cbs lr).1 = .ok s' →
        s'.fp16 = false ∧ s'.scaler = s0.scaler :=
  evOK_fit_scaler_free ctx s0 args td vd ts vs cbs lr hdev hxla

theorem fit_tpu_forces_fp32_witness :
    (∀ e ∈ (fit { ctxW with xlaAvailable := true } initState
        { argsW with device := "tpu", fp16 := true } dsW none none none
        none (-1)).2, isScalerEv e = false)
    ∧ ∀ s', (fit { ctxW with xlaAvailable := true } initState
        { argsW with device := "tpu", fp16 := true } dsW none none none
        none (-1)).1 = .ok s' →
        s'.fp16 = false ∧ s'.scaler = initState.scaler :=
  fit_tpu_forces_fp32 { ctxW with xlaAvailable := true } initState
    { argsW with device := "tpu", fp16 := true } dsW none none none
    none (-1) rfl rfl

/-- C1: requesting the `"tpu"` device without an available XLA backend makes
both `fit` and `load` fail with `RuntimeError "XLA is not available"` before
anything happens (the event trace is empty, so the model is untouched); and
neither operation catches or transforms any other failure: an arbitrary
error raised inside the forward pass surfaces unmodified from `fit`, and an
arbitrary error from checkpoint deserialization surfaces unmodified from
`load`. -/
theorem accelerator_guard_and_transparent_failures :
    (∀ (ctx : Ctx) (s0 : TezState) (args : TezConfig) (td : Dataset)
        (vd : Option Dataset) (ts vs : Option Nat) (cbs : Option (List Nat))
        (lr : Int), args.device = "tpu" → ctx.xlaAvailable = false →
        fit ctx s0 args td vd ts vs cbs lr
          = (.error (.runtimeError "XLA is not available"), []))
    ∧ (∀ (ctx : Ctx) (s : TezState) (p : String) (w : Bool),
        ctx.xlaAvailable = false →
        load ctx s p w "tpu"
          = (.error (.runtimeError "XLA is not available"), []))
    ∧ (∀ e : PyErr,
        (fit { ctxW with lossOf := fun _ => .error e } initState argsW dsW
          none none none none (-1)).1 = .error e)
    ∧ (∀ e : PyErr,
        (load { ctxW with torchLoad := fun _ => .error e } initState "p"
          false "cpu").1 = .error e) := by
  refine ⟨fun ctx s0 args td vd ts vs cbs lr hdev hxla => ?_,
    fun ctx s p w hxla => ?_, fun e => ?_, fun e => ?_⟩
  · obtain ⟨ep, tbs, vbs, nj, acc, cgn, tsh, dev, fp⟩ := args
    obtain ⟨xla, cpu, cdc, lof, mq, gmq, fo, fs, osd, ssd, tl, ds, cb⟩ := ctx
    cases hdev
    cases hxla
    rfl
  · obtain ⟨xla, cpu, cdc, lof, mq, gmq, fo, fs, osd, ssd, tl, ds, cb⟩ := ctx
    cases hxla
    rfl
  · rfl
  · rfl

theorem accelerator_guard_witness :
    fit ctxW initState { argsW with device := "tpu" } dsW none none none
        none (-1)
      = (.error (.runtimeError "XLA is not available"), []) :=
  accelerator_guard_and_transparent_failures.1 ctxW initState
    { argsW with device := "tpu" } dsW none none none none (-1) rfl rfl

theorem move_model_pair (s : TezState) (d : Dev) :
    ∃ s'' t, move_model_if_needed s d = (.ok s'', t)
      ∧ s''.model = s.model ∧ s''.optimizer = s.optimizer
      ∧ s''.scheduler = s.scheduler ∧ s''.current_epoch = s.current_epoch
      ∧ s''.fp16 = s.fp16 := by
  unfold move_model_if_needed
  split
  · exact ⟨_, _, rfl, rfl, rfl, rfl, rfl, rfl⟩
  · exact ⟨_, _, rfl, rfl, rfl, rfl, rfl, rfl⟩

/-- C9: loading a full checkpoint written by `save` with
`weights_only=False` restores only the model weights from its
`"state_dict"` entry; the optimizer state, scheduler state, epoch counter
and `fp16` flag stored alongside are never applied — the loading object
keeps its own prior values for those fields. -/
theorem load_restores_weights_only (ctx : Ctx) (s1 s2 : TezState)
    (p : String) (dev : String)
    (hload : ctx.torchLoad p = .ok (save ctx s1 false))
    (htpu : dev = "tpu" → ctx.xlaAvailable = true) :
    ∃ s', (load ctx s2 p false dev).1 = .ok s'
      ∧ s'.model = s1.model
      ∧ s'.optimizer = s2.optimizer ∧ s'.scheduler = s2.scheduler
      ∧ s'.current_epoch = s2.current_epoch ∧ s'.fp16 = s2.fp16 := by
  by_cases hd : dev = "tpu"
  · subst hd
    have hxla := htpu rfl
    have h1 : load_device ctx s2 "tpu"
        = pure ({ s2 with using_tpu := true }, Dev.xlaDev) := by
      unfold load_device
      rw [if_pos rfl, hxla, if_neg (by decide)]
    obtain ⟨s'', t, hpair, hf1, hf2, hf3, hf4, hf5⟩ :=
      move_model_pair ({ s2 with using_tpu := true, device := some Dev.xlaDev }) Dev.xlaDev
    unfold load
    rw [h1]
    simp only [TM.pure_eq, TM.bind_ok]
    rw [hpair]
    simp only [TM.bind_ok, liftE, hload, checkpoint_entry, save,
      dictSet, dictGet, asStateDict, TM.pure_eq, reduceIte]
    exact ⟨_, rfl, rfl, hf2, hf3, hf4, hf5⟩
  · have h1 : load_device ctx s2 dev = pure (s2, Dev.pyStr dev) := by
      unfold load_device
      rw [if_neg hd]
    obtain ⟨s'', t, hpair, hf1, hf2, hf3, hf4, hf5⟩ :=
      move_model_pair ({ s2 with device := some (Dev.pyStr dev) })
        (Dev.pyStr dev)
    unfold load
    rw [h1]
    simp only [TM.pure_eq, TM.bind_ok]
    rw [hpair]
    simp only [TM.bind_ok, liftE, hload, checkpoint_entry, save,
      dictSet, dictGet, asStateDict, TM.pure_eq, reduceIte]
    exact ⟨_, rfl, rfl, hf2, hf3, hf4, hf5⟩

def ctx9 : Ctx :=
  { ctxW with torchLoad :=
      fun _ => .ok (save ctxW { initState with model := 42 } false) }

def st9 : TezState :=
  { initState with current_epoch := 7, fp16 := true, optimizer := some 3 }

theorem load_restores_weights_only_witness :
    ∃ s', (load ctx9 st9 "p" false "cpu").1 = .ok s'
      ∧ s'.model = ({ initState with model := 42 } : TezState).model
      ∧ s'.optimizer = st9.optimizer
      ∧ s'.scheduler = st9.scheduler
      ∧ s'.current_epoch = st9.current_epoch
      ∧ s'.fp16 = st9.fp16 :=
  load_restores_weights_only ctx9 { initState with model := 42 } st9
    "p" "cpu" rfl (fun h => absurd h (by decide))

/-- C6: the configuration is NOT accepted as-is: when no pre-built train
loader exists, any worker count other than `-1` crashes loader
construction with `UnboundLocalError` on the local `n_jobs` (the source
assigns the local only inside `if self.config.n_jobs == -1:`); the only
working value is `-1`, for which the loaders get the machine CPU count. -/
theorem fit_n_jobs_unbound_local :
    (fit ctxW initState { argsW with n_jobs := 4 } dsW none none none none
        (-1)).1 = .error (.unboundLocal "n_jobs")
    ∧ ((fit ctxW initState argsW dsW none none none none (-1)).1.toOption.map
        (fun s' => s'.train_loader.map (fun l => l.numWorkers)))
      = some (some 8) :=
  ⟨rfl, rfl⟩

/-- The events whose absence makes both epoch counters zero. -/
def P23 : Ev → Prop := fun e =>
  ¬e = Ev.modelTrainMode ∧ ¬e = Ev.modelEvalMode

/-- Frame preserved by everything in the epoch loop: the attached runner,
both loaders and the epoch counter. -/
def QI (s : TezState) : TezState → Prop := fun s' =>
  s'.callback_runner = s.callback_runner ∧ s'.train_loader = s.train_loader
  ∧ s'.valid_loader = s.valid_loader ∧ s'.current_epoch = s.current_epoch

theorem QI_rfl (s : TezState) : QI s s := ⟨rfl, rfl, rfl, rfl⟩

theorem QI_trans {s1 s2 s3 : TezState} (h12 : QI s1 s2) (h23 : QI s2 s3) :
    QI s1 s3 :=
  ⟨h23.1.trans h12.1, h23.2.1.trans h12.2.1, h23.2.2.1.trans h12.2.2.1,
   h23.2.2.2.trans h12.2.2.2⟩

theorem countTrainEpochRuns_append (t1 t2 : List Ev) :
    countTrainEpochRuns (t1 ++ t2)
      = countTrainEpochRuns t1 + countTrainEpochRuns t2 := by
  simp [countTrainEpochRuns, List.count_append]

theorem countValidEpochRuns_append (t1 t2 : List Ev) :
    countValidEpochRuns (t1 ++ t2)
      = countValidEpochRuns t1 + countValidEpochRuns t2 := by
  simp [countValidEpochRuns, List.count_append]

theorem countTrainEpochRuns_zero (t : List Ev) (h : ∀ e ∈ t, P23 e) :
    countTrainEpochRuns t = 0 :=
  List.count_eq_zero.mpr (fun hm => (h _ hm).1 rfl)

theorem countValidEpochRuns_zero (t : List Ev) (h : ∀ e ∈ t, P23 e) :
    countValidEpochRuns t = 0 :=
  List.count_eq_zero.mpr (fun hm => (h _ hm).2 rfl)

/-- Success-conditional judgment: when the computation succeeds, its
trace runs `model.train()` `n` times and `model.eval()` `m` times, and the
result satisfies `Q`. -/
def Cnt2OK {α : Type} (n m : Nat) (Q : α → Prop) (x : TM α) : Prop :=
  ∀ a, x.1 = Except.ok a →
    countTrainEpochRuns x.2 = n ∧ countValidEpochRuns x.2 = m ∧ Q a

theorem cnt2_bind {α β : Type} {n m n' m' : Nat} (Q : α → Prop)
    {R : β → Prop} {x : TM α} {f : α → TM β}
    (hx : Cnt2OK n m Q x) (hf : ∀ a, Q a → Cnt2OK n' m' R (f a)) :
    Cnt2OK (n + n') (m + m') R (@Bind.bind TM _ α β x f) := by
  rcases x with ⟨r, t⟩
  cases r with
  | error e =>
    rw [TM.bind_err]
    exact fun a h => Except.noConfusion h
  | ok a =>
    rw [TM.bind_ok]
    intro b hb
    obtain ⟨hn, hm, hq⟩ := hx a rfl
    obtain ⟨hn', hm', hr⟩ := hf a hq b hb
    refine ⟨?_, ?_, hr⟩
    · rw [countTrainEpochRuns_append, hn, hn']
    · rw [countValidEpochRuns_append, hm, hm']

theorem cnt2_pure {α : Type} {Q : α → Prop} (a : α) (h : Q a) :
    Cnt2OK 0 0 Q (@Pure.pure TM _ α a) :=
  fun b hb => by cases hb; exact ⟨rfl, rfl, h⟩

theorem cnt2_ofOpt {α : Type} {Q : α → Prop} (o : Option α) (e : PyErr)
    (h : ∀ a, o = some a → Q a) : Cnt2OK 0 0 Q (ofOption o e) := by
  cases o with
  | none => exact fun a ha => Except.noConfusion ha
  | some a => exact fun b hb => by cases hb; exact ⟨rfl, rfl, h a rfl⟩

theorem cnt2_lift {α : Type} {Q : α → Prop} (x : Except PyErr α)
    (h : ∀ a, x = .ok a → Q a) : Cnt2OK 0 0 Q (liftE x) :=
  fun a ha => ⟨rfl, rfl, h a ha⟩

theorem cnt2_emit_train {Q : TezState → Prop} (s : TezState) (h : Q s) :
    Cnt2OK 1 0 Q (emitE s .modelTrainMode) :=
  fun b hb => by cases hb; exact ⟨rfl, rfl, h⟩

theorem cnt2_emit_valid {Q : TezState → Prop} (s : TezState) (h : Q s) :
    Cnt2OK 0 1 Q (emitE s .modelEvalMode) :=
  fun b hb => by cases hb; exact ⟨rfl, rfl, h⟩

theorem cnt2_of_evOK {α : Type} {Q : α → Prop} {x : TM α}
    (h : EvOK P23 Q x) : Cnt2OK 0 0 Q x :=
  fun a ha => ⟨countTrainEpochRuns_zero x.2 h.1,
    countValidEpochRuns_zero x.2 h.1, h.2 a ha⟩

theorem cnt2_congr {α : Type} {n m n' m' : Nat} {Q : α → Prop} {x : TM α}
    (h : Cnt2OK n m Q x) (hn : n = n') (hm : m = m') : Cnt2OK n' m' Q x := by
  rw [← hn, ← hm]
  exact h

theorem setTrainState_QI (ctx : Ctx) (s : TezState) (v : TrainingState) :
    ∀ s', (setTrainState ctx s v).1 = .ok s' → QI s s' := by
  intro s' h
  unfold setTrainState at h
  by_cases hcb : ({ s with tstate := some v } : TezState).callback_runner
      = true
  · rw [if_pos hcb] at h
    cases h
    exact ⟨rfl, rfl, rfl, rfl⟩
  · rw [if_neg hcb] at h
    cases h
    exact ⟨rfl, rfl, rfl, rfl⟩

theorem evOK_setTrainStateI {P : Ev → Prop} (ctx : Ctx) (s : TezState)
    (v : TrainingState) (h1 : P (.assignTrain v)) (h2 : P (.cbRun v)) :
    EvOK P (QI s) (setTrainState ctx s v) :=
  ⟨(evOK_setTrainState ctx s v h1 h2).1, setTrainState_QI ctx s v⟩

theorem evOK_setModelStateI {P : Ev → Prop} (s : TezState) (v : ModelState)
    (h1 : P (.assignModel v)) :
    EvOK P (QI s) (setModelState s v) :=
  ⟨(evOK_setModelState s v h1).1,
   fun s' h => by cases h; exact ⟨rfl, rfl, rfl, rfl⟩⟩

theorem update_metrics_QI (s : TezState) (losses : AverageMeter)
    (monitor : MDict) :
    ∀ s', update_metrics s losses monitor = .ok s' → QI s s' := by
  intro s' h
  unfold update_metrics at h
  rcases hms : s.mstate with _ | ms
  · simp only [hms] at h
    exact Except.noConfusion h
  · simp only [hms] at h
    rcases hg : (dictGet s.metrics ms.value : Except PyErr MDict)
      with e | sub
    · simp only [hg] at h
      exact Except.noConfusion h
    · simp only [hg] at h
      cases h
      exact ⟨rfl, rfl, rfl, rfl⟩

theorem evOK_sampler_epoch_id {P : Ev → Prop} (s : TezState)
    (hsse : ∀ n, P (.samplerSetEpoch n)) :
    EvOK P (fun s' => s' = s) (sampler_epoch s) := by
  unfold sampler_epoch
  refine evOK_ite _ (fun _ => ?_) (fun _ => evOK_pure _ rfl)
  refine evOK_bind (fun _ => True) (evOK_ofOptT _ _) (fun _ _ => ?_)
  exact evOK_emit _ _ (hsse _) rfl

theorem evOK_barrier_id {P : Ev → Prop} (s : TezState)
    (hbar : P .barrier) :
    EvOK P (fun s' => s' = s) (barrier_if_dist s) := by
  unfold barrier_if_dist
  exact evOK_ite _ (fun _ => evOK_emit _ _ hbar rfl)
    (fun _ => evOK_pure _ rfl)

theorem evOK_optzero_id {P : Ev → Prop} (s : TezState)
    (hozg : P .optZeroGrad) :
    EvOK P (fun s' => s' = s) (opt_zero_if_accum s) := by
  unfold opt_zero_if_accum
  refine evOK_ite _ (fun _ => ?_) (fun _ => evOK_pure _ rfl)
  refine evOK_bind (fun _ => True) (evOK_ofOptT _ _) (fun _ _ => ?_)
  exact evOK_emit _ _ hozg rfl

theorem evOK_gather_id {P : Ev → Prop} (ctx : Ctx) (s : TezState)
    (loss : ℚ) (hbar : P .barrier) (hag : P .allGatherLoss) :
    EvOK P (fun sl => sl.1 = s) (gather_valid_loss ctx s loss) := by
  unfold gather_valid_loss
  refine evOK_ite _ (fun _ => ?_) (fun _ => evOK_pure _ rfl)
  refine evOK_bind (fun s2 => s2 = s) (evOK_emit _ _ hbar rfl)
    (fun s2 hs2 => ?_)
  refine evOK_bind (fun s3 => s3 = s2) (evOK_emit _ _ hag rfl)
    (fun s3 hs3 => ?_)
  exact evOK_pure _ (hs3.trans hs2)

theorem evOK_sched_epoch_id {P : Ev → Prop} (s : TezState)
    (hsc : ∀ m, P (.schedStep m)) :
    EvOK P (fun s' => s' = s) (scheduler_epoch_step s) := by
  unfold scheduler_epoch_step
  refine evOK_ite _ (fun _ => ?_) (fun _ => evOK_pure _ rfl)
  refine evOK_ite _ (fun _ => ?_) (fun _ => evOK_pure _ rfl)
  match s.step_scheduler_metric with
  | none => exact evOK_emit _ _ (hsc none) rfl
  | some mname =>
    exact evOK_bind (fun _ => True) (evOK_liftT _)
      (fun v _ => evOK_emit _ _ (hsc (some v)) rfl)

theorem evOK_trainBatchLoopI {P : Ev → Prop} (ctx : Ctx) (dl : Loader)
    (bs : List Nat) :
    ∀ (s : TezState) (losses : AverageMeter)
      (mm : List (String × AverageMeter)) (mon : Option MDict),
    (∀ v, P (.assignTrain v)) → (∀ v, P (.cbRun v)) →
    P .modelZeroGrad → (∀ d b, P (.forward d b)) →
    (∀ x : ℚ, P (.scalerBackward x)) →
    (∀ x : ℚ, P (.backward x)) → (∀ c : ℚ, P (.clipGrad c)) →
    P .scalerStep → P .scalerUpdate →
    P .xmOptStep → P .optStep → (∀ m, P (.schedStep m)) →
    EvOK P (fun r => QI s r.1) (trainBatchLoop ctx dl bs s losses mm mon) := by
  induction bs with
  | nil =>
    intro s losses mm mon _ _ _ _ _ _ _ _ _ _ _ _
    exact evOK_pure _ (QI_rfl s)
  | cons b rest ih =>
    intro s losses mm mon hat hcb hzg hfw hsb hbw hcl hss hsu2 hxm hop hsc
    show EvOK P _ (trainBatchLoop ctx dl (b :: rest) s losses mm mon)
    rw [trainBatchLoop]
    refine evOK_bind (QI { s with batch_index := b })
      (evOK_setTrainStateI ctx _ _ (hat _) (hcb _)) (fun s1 hs1 => ?_)
    refine evOK_bind (fun _ => True)
      (evOK_train_one_step2 ctx s1 b hzg (hfw _ _) (fun _ => hsb)
        hbw hcl (fun _ => ⟨hss, hsu2⟩) hxm hop hsc)
      (fun r _ => ?_)
    refine evOK_bind (QI s1)
      (evOK_setTrainStateI ctx _ _ (hat _) (hcb _)) (fun s2 hs2 => ?_)
    refine evOK_bind (fun _ => True) (evOK_liftT _) (fun fm _ => ?_)
    have hQ12 : QI s s2 := QI_trans hs1 hs2
    refine evOK_mono
      (ih { s2 with current_train_step := s2.current_train_step + 1 }
        _ _ _ hat hcb hzg hfw hsb hbw hcl hss hsu2 hxm hop hsc)
      (fun r hr => ?_)
    exact QI_trans hQ12 hr

theorem evOK_validBatchLoopI {P : Ev → Prop} (ctx : Ctx) (dl : Loader)
    (bs : List Nat) :
    ∀ (s : TezState) (losses : AverageMeter)
      (mm : List (String × AverageMeter)) (mon : Option MDict),
    (∀ v, P (.assignTrain v)) → (∀ v, P (.cbRun v)) →
    (∀ d b, P (.forward d b)) → P .barrier → P .allGatherLoss →
    EvOK P (fun r => QI s r.1) (validBatchLoop ctx dl bs s losses mm mon) := by
  induction bs with
  | nil =>
    intro s losses mm mon _ _ _ _ _
    exact evOK_pure _ (QI_rfl s)
  | cons b rest ih =>
    intro s losses mm mon hat hcb hfw hbar hag
    show EvOK P _ (validBatchLoop ctx dl (b :: rest) s losses mm mon)
    rw [validBatchLoop]
    refine evOK_bind (QI s)
      (evOK_setTrainStateI ctx _ _ (hat _) (hcb _)) (fun s1 hs1 => ?_)
    refine evOK_bind (fun _ => True)
      (evOK_validate_one_step2 ctx s1 b (hfw _ _)) (fun r _ => ?_)
    refine evOK_bind (fun sl => sl.1 = s1)
      (evOK_gather_id ctx s1 r.1 hbar hag) (fun sl hsl => ?_)
    refine evOK_bind (QI sl.1)
      (evOK_setTrainStateI ctx _ _ (hat _) (hcb _)) (fun s2 hs2 => ?_)
    refine evOK_bind (fun _ => True) (evOK_liftT _) (fun fm _ => ?_)
    have hQ : QI s s2 := QI_trans hs1 (hsl ▸ hs2)
    refine evOK_mono
      (ih { s2 with current_valid_step := s2.current_valid_step + 1 }
        _ _ _ hat hcb hfw hbar hag) (fun r hr => ?_)
    exact QI_trans hQ hr

theorem cnt2_bind0 {α β : Type} (Q : α → Prop) {n' m' : Nat}
    {R : β → Prop} {x : TM α} {f : α → TM β}
    (hx : Cnt2OK 0 0 Q x) (hf : ∀ a, Q a → Cnt2OK n' m' R (f a)) :
    Cnt2OK n' m' R (@Bind.bind TM _ α β x f) :=
  cnt2_congr (cnt2_bind Q hx hf) (Nat.zero_add n') (Nat.zero_add m')

theorem cnt2_bindM0 {α β : Type} (Q : α → Prop) {n n' m' : Nat}
    {R : β → Prop} {x : TM α} {f : α → TM β}
    (hx : Cnt2OK n 0 Q x) (hf : ∀ a, Q a → Cnt2OK n' m' R (f a)) :
    Cnt2OK (n + n') m' R (@Bind.bind TM _ α β x f) :=
  cnt2_congr (cnt2_bind Q hx hf) rfl (Nat.zero_add m')

theorem cnt2_mono {α : Type} {n m : Nat} {Q Q' : α → Prop} {x : TM α}
    (h : Cnt2OK n m Q x) (hq : ∀ a, Q a → Q' a) : Cnt2OK n m Q' x :=
  fun a ha => ⟨(h a ha).1, (h a ha).2.1, hq a (h a ha).2.2⟩

theorem cnt2_train_one_epoch (ctx : Ctx) (s : TezState) (dl : Loader) :
    Cnt2OK 1 0 (fun r => QI s r.1) (train_one_epoch ctx s dl) := by
  unfold train_one_epoch
  refine cnt2_bind0 (fun s1 => s1 = s)
    (cnt2_of_evOK (evOK_sampler_epoch_id s
      (fun _ => ⟨fun h => Ev.noConfusion h, fun h => Ev.noConfusion h⟩)))
    (fun s1 hs1 => ?_)
  show Cnt2OK (1 + 0) 0 _ _
  refine cnt2_bindM0 (fun s2 => s2 = s1) (cnt2_emit_train s1 rfl)
    (fun s2 hs2 => ?_)
  refine cnt2_bind0 (fun s3 => s3 = s2)
    (cnt2_of_evOK (evOK_barrier_id s2
      ⟨fun h => Ev.noConfusion h, fun h => Ev.noConfusion h⟩))
    (fun s3 hs3 => ?_)
  refine cnt2_bind0 (QI s3)
    (cnt2_of_evOK (evOK_setModelStateI s3 _
      ⟨fun h => Ev.noConfusion h, fun h => Ev.noConfusion h⟩))
    (fun s4 hs4 => ?_)
  refine cnt2_bind0 (fun s5 => s5 = s4)
    (cnt2_of_evOK (evOK_optzero_id s4
      ⟨fun h => Ev.noConfusion h, fun h => Ev.noConfusion h⟩))
    (fun s5 hs5 => ?_)
  refine cnt2_bind0 (fun r => QI s5 r.1)
    (cnt2_of_evOK (evOK_trainBatchLoopI ctx dl _ s5 _ _ _
      (fun _ => ⟨fun h => Ev.noConfusion h, fun h => Ev.noConfusion h⟩)
      (fun _ => ⟨fun h => Ev.noConfusion h, fun h => Ev.noConfusion h⟩)
      ⟨fun h => Ev.noConfusion h, fun h => Ev.noConfusion h⟩
      (fun _ _ => ⟨fun h => Ev.noConfusion h, fun h => Ev.noConfusion h⟩)
      (fun _ => ⟨fun h => Ev.noConfusion h, fun h => Ev.noConfusion h⟩)
      (fun _ => ⟨fun h => Ev.noConfusion h, fun h => Ev.noConfusion h⟩)
      (fun _ => ⟨fun h => Ev.noConfusion h, fun h => Ev.noConfusion h⟩)
      ⟨fun h => Ev.noConfusion h, fun h => Ev.noConfusion h⟩
      ⟨fun h => Ev.noConfusion h, fun h => Ev.noConfusion h⟩
      ⟨fun h => Ev.noConfusion h, fun h => Ev.noConfusion h⟩
      ⟨fun h => Ev.noConfusion h, fun h => Ev.noConfusion h⟩
      (fun _ => ⟨fun h => Ev.noConfusion h, fun h => Ev.noConfusion h⟩)))
    (fun r hr => ?_)
  refine cnt2_bind0 (fun _ => True) (cnt2_ofOpt _ _ (fun _ _ => trivial))
    (fun monitor _ => ?_)
  refine cnt2_bind0 (QI r.1) (cnt2_lift _ (update_metrics_QI r.1 _ monitor))
    (fun s6 hs6 => ?_)
  have e3 : s3 = s := hs3.trans (hs2.trans hs1)
  have h4 : QI s s4 := e3 ▸ hs4
  have h5 : QI s4 r.1 := hs5 ▸ hr
  exact cnt2_pure _ (QI_trans h4 (QI_trans h5 hs6))

theorem cnt2_validate_one_epoch (ctx : Ctx) (s : TezState) (dl : Loader) :
    Cnt2OK 0 1 (fun r => QI s r.1) (validate_one_epoch ctx s dl) := by
  unfold validate_one_epoch
  show Cnt2OK (0 + 0) (1 + 0) _ _
  refine cnt2_bind (fun s1 => s1 = s) (cnt2_emit_valid s rfl)
    (fun s1 hs1 => ?_)
  refine cnt2_bind0 (QI s1)
    (cnt2_of_evOK (evOK_setModelStateI s1 _
      ⟨fun h => Ev.noConfusion h, fun h => Ev.noConfusion h⟩))
    (fun s2 hs2 => ?_)
  refine cnt2_bind0 (fun r => QI s2 r.1)
    (cnt2_of_evOK (evOK_validBatchLoopI ctx dl _ s2 _ _ _
      (fun _ => ⟨fun h => Ev.noConfusion h, fun h => Ev.noConfusion h⟩)
      (fun _ => ⟨fun h => Ev.noConfusion h, fun h => Ev.noConfusion h⟩)
      (fun _ _ => ⟨fun h => Ev.noConfusion h, fun h => Ev.noConfusion h⟩)
      ⟨fun h => Ev.noConfusion h, fun h => Ev.noConfusion h⟩
      ⟨fun h => Ev.noConfusion h, fun h => Ev.noConfusion h⟩))
    (fun r hr => ?_)
  refine cnt2_bind0 (fun _ => True) (cnt2_ofOpt _ _ (fun _ _ => trivial))
    (fun monitor _ => ?_)
  refine cnt2_bind0 (QI r.1) (cnt2_lift _ (update_metrics_QI r.1 _ monitor))
    (fun s6 hs6 => ?_)
  have h2 : QI s s2 := hs1 ▸ hs2
  exact cnt2_pure _ (QI_trans h2 (QI_trans hr hs6))

theorem cnt2_valid_phase (ctx : Ctx) (s : TezState) :
    Cnt2OK 0 (if loaderTruthy s.valid_loader then 1 else 0) (QI s)
      (valid_phase ctx s) := by
  unfold valid_phase
  by_cases hvt : loaderTruthy s.valid_loader = true
  · simp only [if_pos hvt]
    refine cnt2_bind0 (QI s)
      (cnt2_of_evOK (evOK_setTrainStateI ctx s _
        ⟨fun h => Ev.noConfusion h, fun h => Ev.noConfusion h⟩
        ⟨fun h => Ev.noConfusion h, fun h => Ev.noConfusion h⟩))
      (fun s1 hs1 => ?_)
    refine cnt2_bind0 (fun _ => True) (cnt2_ofOpt _ _ (fun _ _ => trivial))
      (fun vl _ => ?_)
    show Cnt2OK (0 + 0) (1 + 0) _ _
    refine cnt2_bind (fun r => QI s1 r.1)
      (cnt2_validate_one_epoch ctx s1 vl) (fun r hr => ?_)
    refine cnt2_mono
      (cnt2_of_evOK (evOK_setTrainStateI ctx r.1 _
        ⟨fun h => Ev.noConfusion h, fun h => Ev.noConfusion h⟩
        ⟨fun h => Ev.noConfusion h, fun h => Ev.noConfusion h⟩))
      (fun s' h => QI_trans (QI_trans hs1 hr) h)
  · simp only [if_neg hvt]
    exact cnt2_pure _ (QI_rfl s)

theorem cnt2_epochBody (ctx : Ctx) (s : TezState) :
    Cnt2OK 1 (if loaderTruthy s.valid_loader then 1 else 0) (QI s)
      (epochBody ctx s) := by
  unfold epochBody
  refine cnt2_bind0 (QI s)
    (cnt2_of_evOK (evOK_setTrainStateI ctx s _
      ⟨fun h => Ev.noConfusion h, fun h => Ev.noConfusion h⟩
      ⟨fun h => Ev.noConfusion h, fun h => Ev.noConfusion h⟩))
    (fun s1 hs1 => ?_)
  refine cnt2_bind0 (QI s1)
    (cnt2_of_evOK (evOK_setTrainStateI ctx s1 _
      ⟨fun h => Ev.noConfusion h, fun h => Ev.noConfusion h⟩
      ⟨fun h => Ev.noConfusion h, fun h => Ev.noConfusion h⟩))
    (fun s2 hs2 => ?_)
  refine cnt2_bind0 (fun _ => True) (cnt2_ofOpt _ _ (fun _ _ => trivial))
    (fun dl _ => ?_)
  show Cnt2OK (1 + 0)
    (if loaderTruthy s.valid_loader then 1 else 0) _ _
  refine cnt2_bindM0 (fun r => QI s2 r.1)
    (cnt2_train_one_epoch ctx s2 dl) (fun r hr => ?_)
  refine cnt2_bind0 (QI r.1)
    (cnt2_of_evOK (evOK_setTrainStateI ctx r.1 _
      ⟨fun h => Ev.noConfusion h, fun h => Ev.noConfusion h⟩
      ⟨fun h => Ev.noConfusion h, fun h => Ev.noConfusion h⟩))
    (fun s3 hs3 => ?_)
  have hQ3 : QI s s3 :=
    QI_trans hs1 (QI_trans hs2 (QI_trans hr hs3))
  have hv3 : s3.valid_loader = s.valid_loader := hQ3.2.2.1
  show Cnt2OK (0 + 0)
    ((if loaderTruthy s.valid_loader then 1 else 0) + 0) _ _
  refine cnt2_bind (QI s3)
    (cnt2_congr (cnt2_valid_phase ctx s3) rfl (by rw [hv3]))
    (fun s4 hs4 => ?_)
  refine cnt2_bind0 (fun s5 => s5 = s4)
    (cnt2_of_evOK (evOK_sched_epoch_id s4
      (fun _ => ⟨fun h => Ev.noConfusion h, fun h => Ev.noConfusion h⟩)))
    (fun s5 hs5 => ?_)
  refine cnt2_mono
    (cnt2_of_evOK (evOK_setTrainStateI ctx s5 _
      ⟨fun h => Ev.noConfusion h, fun h => Ev.noConfusion h⟩
      ⟨fun h => Ev.noConfusion h, fun h => Ev.noConfusion h⟩))
    (fun s' h => ?_)
  exact QI_trans hQ3 (QI_trans hs4 (hs5 ▸ h))

theorem ofOption_some {α : Type} (a : α) (e : PyErr) :
    ofOption (some a) e = (Except.ok a, ([] : List Ev)) := rfl

theorem countTrainEpochRuns_nil : countTrainEpochRuns [] = 0 := rfl

theorem countValidEpochRuns_nil : countValidEpochRuns [] = 0 := rfl

theorem fitEpochs_schedule (ctx : Ctx) (N : Nat) :
    ∀ s s', (fitEpochs ctx N s).1 = .ok s' →
      ∃ k, k ≤ N
        ∧ countTrainEpochRuns (fitEpochs ctx N s).2 = k
        ∧ countValidEpochRuns (fitEpochs ctx N s).2
            = (if loaderTruthy s.valid_loader then k else 0)
        ∧ s'.valid_loader = s.valid_loader
        ∧ ((k = N ∧ s'.current_epoch = s.current_epoch + N)
           ∨ (1 ≤ k ∧ s'.current_epoch + 1 = s.current_epoch + k
              ∧ ∃ mv, s'.mstate = some mv ∧ mv.value = "end")) := by
  induction N with
  | zero =>
    intro s s' h
    cases h
    refine ⟨0, le_refl 0, rfl, ?_, rfl, Or.inl ⟨rfl, rfl⟩⟩
    split <;> rfl
  | succ n ih =>
    intro s s' h
    rw [show fitEpochs ctx (n + 1) s = _ from rfl] at h ⊢
    rw [fitEpochs] at h ⊢
    rcases hB : epochBody ctx s with ⟨rB, tB⟩
    rw [hB] at h
    cases rB with
    | error e =>
      rw [TM.bind_err] at h
      exact Except.noConfusion h
    | ok s1 =>
      rw [TM.bind_ok] at h ⊢
      obtain ⟨hn1, hm1, hQ1⟩ := cnt2_epochBody ctx s s1 (by rw [hB])
      rw [hB] at hn1 hm1
      have hn1' : countTrainEpochRuns tB = 1 := hn1
      have hm1' : countValidEpochRuns tB
          = (if loaderTruthy s.valid_loader then 1 else 0) := hm1
      rcases hms : s1.mstate with _ | ms
      · rw [hms] at h
        exact Except.noConfusion h
      · rw [hms] at h
        rw [ofOption_some, TM.bind_ok] at h ⊢
        by_cases hend : ms.value = "end"
        · rw [if_pos hend] at h ⊢
          cases h
          refine ⟨1, Nat.succ_le_succ (Nat.zero_le n), ?_, ?_, hQ1.2.2.1,
            Or.inr ⟨le_refl 1, by rw [hQ1.2.2.2], ms, hms, hend⟩⟩
          · rw [countTrainEpochRuns_append, countTrainEpochRuns_append,
              hn1']
            rfl
          · rw [countValidEpochRuns_append, countValidEpochRuns_append,
              hm1']
            rfl
        · rw [if_neg hend] at h ⊢
          obtain ⟨k, hk, hn', hm', hvl', hdisj⟩ := ih _ s' h
          have hvls : ({ s1 with current_epoch := s1.current_epoch + 1 }
              : TezState).valid_loader = s.valid_loader := hQ1.2.2.1
          refine ⟨k + 1, Nat.succ_le_succ hk, ?_, ?_, ?_, ?_⟩
          · rw [countTrainEpochRuns_append, countTrainEpochRuns_append,
              countTrainEpochRuns_nil, hn1', hn']
            omega
          · rw [countValidEpochRuns_append, countValidEpochRuns_append,
              countValidEpochRuns_nil, hm1', hm']
            rw [hvls]
            by_cases hb : loaderTruthy s.valid_loader = true
            · rw [if_pos hb, if_pos hb, if_pos hb]
              omega
            · rw [if_neg hb, if_neg hb, if_neg hb]
          · rw [hvl', hvls]
          · have hce : s1.current_epoch = s.current_epoch := hQ1.2.2.2
            rcases hdisj with ⟨hkn, hce'⟩ | ⟨hk1, hce', mv, hmv, hmve⟩
            · refine Or.inl ⟨by omega, ?_⟩
              have : s'.current_epoch
                  = s1.current_epoch + 1 + n := hce'
              omega
            · refine Or.inr ⟨by omega, ?_, mv, hmv, hmve⟩
              have : s'.current_epoch + 1
                  = s1.current_epoch + 1 + k := hce'
              omega

theorem emitE_eq {α : Type} (a : α) (ev : Ev) :
    emitE a ev = (Except.ok a, [ev]) := rfl

theorem countTrain_modelTo (d : Dev) :
    countTrainEpochRuns [Ev.modelTo d] = 0 := rfl

theorem countValid_modelTo (d : Dev) :
    countValidEpochRuns [Ev.modelTo d] = 0 := rfl

theorem countTrain_set_trace (v : TrainingState) :
    countTrainEpochRuns [Ev.assignTrain v, Ev.cbRun v] = 0 := rfl

theorem countValid_set_trace (v : TrainingState) :
    countValidEpochRuns [Ev.assignTrain v, Ev.cbRun v] = 0 := rfl

theorem evOK_wrap_QI {P : Ev → Prop} (ctx : Ctx) (s : TezState)
    (h1 : P .wrapDP) (h2 : P .initProcessGroup) (h3 : P .wrapDDP)
    (h4 : P .mkDistSampler) : EvOK P (QI s) (wrap_model_dist ctx s) := by
  unfold wrap_model_dist
  refine evOK_ite _ (fun _ => ?_) (fun _ => ?_)
  · exact evOK_ite _ (fun _ => evOK_emit _ _ h1 (QI_rfl s))
      (fun _ => evOK_pure _ (QI_rfl s))
  · refine evOK_bind (QI s) (evOK_emit _ _ h2 (QI_rfl s)) (fun s1 hs1 => ?_)
    refine evOK_bind (QI s1) (evOK_emit _ _ h3 (QI_rfl s1)) (fun s2 hs2 => ?_)
    have hQ2 : QI s s2 := QI_trans hs1 hs2
    refine evOK_ite _ (fun _ => ?_) (fun _ => evOK_pure _ hQ2)
    refine evOK_bind (QI s2) (evOK_emit _ _ h4 (QI_rfl s2)) (fun s3 hs3 => ?_)
    refine evOK_pure _ ?_
    have hQ3 : QI s s3 := QI_trans hQ2 hs3
    exact ⟨hQ3.1, hQ3.2.1, hQ3.2.2.1, hQ3.2.2.2⟩

theorem evOK_build_train_skip {P : Ev → Prop} (ctx : Ctx) (s : TezState)
    (args : TezConfig) (td : Dataset) (tsamp nj : Option Nat)
    (h : ¬s.train_loader = none) :
    EvOK P (fun s' => s' = s) (build_train_loader ctx s args td tsamp nj) := by
  unfold build_train_loader
  exact evOK_ite _ (fun hc => absurd hc h) (fun _ => evOK_pure _ rfl)

theorem evOK_build_valid_skip {P : Ev → Prop} (ctx : Ctx) (s : TezState)
    (args : TezConfig) (vd : Option Dataset) (ts vs : Option Nat)
    (nj : Option Nat) (h : s.valid_loader = none → vd = none) :
    EvOK P (fun s' => s' = s)
      (build_valid_loader ctx s args vd ts vs nj) := by
  unfold build_valid_loader
  refine evOK_ite _ (fun hc => ?_) (fun _ => evOK_pure _ rfl)
  rw [h hc]
  exact evOK_pure _ rfl

theorem attach_default_optimizer_QI (ctx : Ctx) (s : TezState) :
    QI s (attach_default_optimizer ctx s) := by
  unfold attach_default_optimizer
  split <;> exact ⟨rfl, rfl, rfl, rfl⟩

theorem attach_default_scheduler_QI (ctx : Ctx) (s : TezState) :
    QI s (attach_default_scheduler ctx s) := by
  unfold attach_default_scheduler
  split <;> exact ⟨rfl, rfl, rfl, rfl⟩

theorem evOK_make_scaler_QI {P : Ev → Prop} (s : TezState)
    (hmk : P .mkScaler) : EvOK P (QI s) (make_scaler s) := by
  unfold make_scaler
  refine evOK_ite _ (fun _ => ?_) (fun _ => evOK_pure _ (QI_rfl s))
  refine evOK_bind (QI s) (evOK_emit _ _ hmk (QI_rfl s)) (fun s1 hs1 => ?_)
  exact evOK_pure _ ⟨hs1.1, hs1.2.1, hs1.2.2.1, hs1.2.2.2⟩

theorem evOK_init_tez_loaders {P : Ev → Prop} (ctx : Ctx) (s : TezState)
    (args : TezConfig) (td : Dataset) (vd : Option Dataset)
    (ts vs : Option Nat) (cbs : Option (List Nat))
    (hat : ∀ v, P (.assignTrain v)) (hcb : ∀ v, P (.cbRun v))
    (h1 : P .wrapDP) (h2 : P .initProcessGroup) (h3 : P .wrapDDP)
    (h4 : P .mkDistSampler) (hmk : P .mkScaler)
    (htl : ¬s.train_loader = none)
    (hvd : s.valid_loader = none → vd = none) :
    EvOK P (fun s' => s'.callback_runner = true
      ∧ s'.train_loader = s.train_loader
      ∧ s'.valid_loader = s.valid_loader
      ∧ s'.current_epoch = s.current_epoch)
      (_init_tez ctx s args td vd ts vs cbs) := by
  unfold _init_tez
  refine evOK_bind (QI _) (evOK_wrap_QI ctx _ h1 h2 h3 h4)
    (fun s1 hs1 => ?_)
  have htl1 : ¬s1.train_loader = none := by rw [hs1.2.1]; exact htl
  refine evOK_bind (fun s2 => s2 = s1)
    (evOK_build_train_skip ctx s1 _ _ _ _ htl1) (fun s2 hs2 => ?_)
  have hvd2 : s2.valid_loader = none → vd = none := by
    rw [hs2, hs1.2.2.1]; exact hvd
  refine evOK_bind (fun s3 => s3 = s2)
    (evOK_build_valid_skip ctx s2 _ vd _ _ _ hvd2) (fun s3 hs3 => ?_)
  have hQb : QI s3
      (attach_default_scheduler ctx (attach_default_optimizer ctx s3)) :=
    QI_trans (attach_default_optimizer_QI ctx s3)
      (attach_default_scheduler_QI ctx _)
  refine evOK_bind (QI _) (evOK_make_scaler_QI _ hmk) (fun s4 hs4 => ?_)
  refine evOK_mono (evOK_setTrainStateI ctx _ _ (hat _) (hcb _))
    (fun s5 hs5 => ?_)
  have e32 : s3.train_loader = s1.train_loader := by rw [hs3, hs2]
  have e32v : s3.valid_loader = s1.valid_loader := by rw [hs3, hs2]
  have e32e : s3.current_epoch = s1.current_epoch := by rw [hs3, hs2]
  refine ⟨hs5.1, ?_, ?_, ?_⟩
  · exact hs5.2.1.trans ((hs4.2.1.trans hQb.2.1).trans
      (e32.trans hs1.2.1))
  · exact hs5.2.2.1.trans ((hs4.2.2.1.trans hQb.2.2.1).trans
      (e32v.trans hs1.2.2.1))
  · exact hs5.2.2.2.trans ((hs4.2.2.2.trans hQb.2.2.2).trans
      (e32e.trans hs1.2.2.2))

theorem resolve_device_epochs (ctx : Ctx) (s : TezState) (args : TezConfig) :
    ∀ da, (resolve_device ctx s args).1 = .ok da →
      da.2.1.epochs = args.epochs := by
  intro da h
  unfold resolve_device at h
  split at h
  · split at h
    · exact Except.noConfusion h
    · cases h
      rfl
  · split at h
    · split at h
      · cases h
        rfl
      · cases h
        rfl
    · cases h
      rfl

/-- C3: amended epoch-loop schedule.  For a well-formed run (a pre-built
train loader; a valid loader that is pre-built or absent; callbacks that do
not react to the final TRAIN_END dispatch), a successful `fit` with
`epochs = N` runs the train-epoch function some `k ≤ N` times, runs the
validate-epoch function after each train epoch exactly when the valid
loader exists AND is non-empty (Python truthiness: an existing but empty
loader is falsy and skips validation), and increments `current_epoch` once
per completed epoch — with `k = N` in a full run, while on early stop the
lifecycle state holds `"end"` and the final epoch is not counted. -/
theorem fit_epoch_schedule (ctx : Ctx) (s0 : TezState) (args : TezConfig)
    (td : Dataset) (vd : Option Dataset) (ts vs : Option Nat)
    (cbs : Option (List Nat)) (lr : Int)
    (htl : ¬s0.train_loader = none)
    (hvd : s0.valid_loader = none → vd = none)
    (hcbt : ∀ ms, ctx.cb .TRAIN_END ms = ms) :
    ∀ s', (fit ctx s0 args td vd ts vs cbs lr).1 = .ok s' →
      ∃ k, k ≤ args.epochs
        ∧ countTrainEpochRuns (fit ctx s0 args td vd ts vs cbs lr).2 = k
        ∧ countValidEpochRuns (fit ctx s0 args td vd ts vs cbs lr).2
            = (if loaderTruthy s0.valid_loader then k else 0)
        ∧ ((k = args.epochs
              ∧ s'.current_epoch = s0.current_epoch + args.epochs)
           ∨ (1 ≤ k ∧ s'.current_epoch + 1 = s0.current_epoch + k
              ∧ ∃ mv, s'.mstate = some mv ∧ mv.value = "end")) := by
  intro s' h
  unfold fit at h ⊢
  rcases hR : resolve_device ctx (fit_pre s0 lr) args
    with ⟨rR, tR⟩
  rw [hR] at h
  cases rR with
  | error e =>
    rw [TM.bind_err] at h
    exact Except.noConfusion h
  | ok da =>
    rw [TM.bind_ok] at h ⊢
    have htR : ∀ e ∈ tR, P23 e := by
      have hh := (evOK_resolve_device ctx (fit_pre s0 lr) args
        : EvOK P23 (fun _ => True) _).1
      rw [hR] at hh
      exact hh
    have hep : da.2.1.epochs = args.epochs :=
      resolve_device_epochs ctx _ args da (by rw [hR])
    rw [emitE_eq, TM.bind_ok] at h ⊢
    rcases hI : _init_tez ctx
        { fit_dev_state (fit_pre s0 lr) da with model_device := da.1 }
        da.2.1 td vd ts vs cbs with ⟨rI, tI⟩
    rw [hI] at h
    cases rI with
    | error e =>
      rw [TM.bind_err] at h
      exact Except.noConfusion h
    | ok s3 =>
      rw [TM.bind_ok] at h ⊢
      have hIfull := @evOK_init_tez_loaders P23 ctx
        { fit_dev_state (fit_pre s0 lr) da with model_device := da.1 }
        da.2.1 td vd ts vs cbs
        (fun _ => ⟨fun hx => Ev.noConfusion hx, fun hx => Ev.noConfusion hx⟩)
        (fun _ => ⟨fun hx => Ev.noConfusion hx, fun hx => Ev.noConfusion hx⟩)
        ⟨fun hx => Ev.noConfusion hx, fun hx => Ev.noConfusion hx⟩
        ⟨fun hx => Ev.noConfusion hx, fun hx => Ev.noConfusion hx⟩
        ⟨fun hx => Ev.noConfusion hx, fun hx => Ev.noConfusion hx⟩
        ⟨fun hx => Ev.noConfusion hx, fun hx => Ev.noConfusion hx⟩
        ⟨fun hx => Ev.noConfusion hx, fun hx => Ev.noConfusion hx⟩
        htl hvd
      have htI : ∀ e ∈ tI, P23 e := by
        have hh := hIfull.1
        rw [hI] at hh
        exact hh
      obtain ⟨hrun3, htl3, hvl3, hce3⟩ := hIfull.2 s3 (by rw [hI])
      rcases hF : fitEpochs ctx da.2.1.epochs s3 with ⟨rF, tF⟩
      rw [hF] at h
      cases rF with
      | error e =>
        rw [TM.bind_err] at h
        exact Except.noConfusion h
      | ok s4 =>
        rw [TM.bind_ok] at h ⊢
        obtain ⟨k, hk, hnF, hmF, hvlF, hdisj⟩ :=
          fitEpochs_schedule ctx da.2.1.epochs s3 s4 (by rw [hF])
        rw [hF] at hnF hmF
        have hnF' : countTrainEpochRuns tF = k := hnF
        have hmF' : countValidEpochRuns tF
            = (if loaderTruthy s3.valid_loader then k else 0) := hmF
        have hrun4 : s4.callback_runner = true :=
          ((balOK_fitEpochs ctx da.2.1.epochs s3 hrun3).2 s4 (by rw [hF]))
        have hset : setTrainState ctx s4 .TRAIN_END
            = (.ok { s4 with tstate := some .TRAIN_END, mstate := ctx.cb .TRAIN_END s4.mstate },
              [.assignTrain .TRAIN_END, .cbRun .TRAIN_END]) := by
          unfold setTrainState
          rw [if_pos hrun4]
        rw [hset] at h ⊢
        dsimp only at h ⊢
        cases h
        have hzR : countTrainEpochRuns tR = 0 :=
          countTrainEpochRuns_zero tR htR
        have hzRv : countValidEpochRuns tR = 0 :=
          countValidEpochRuns_zero tR htR
        have hzI : countTrainEpochRuns tI = 0 :=
          countTrainEpochRuns_zero tI htI
        have hzIv : countValidEpochRuns tI = 0 :=
          countValidEpochRuns_zero tI htI
        refine ⟨k, by omega, ?_, ?_, ?_⟩
        · rw [countTrainEpochRuns_append, countTrainEpochRuns_append,
            countTrainEpochRuns_append, countTrainEpochRuns_append,
            countTrain_modelTo, countTrain_set_trace,
            hzR, hzI, hnF']
          omega
        · rw [countValidEpochRuns_append, countValidEpochRuns_append,
            countValidEpochRuns_append, countValidEpochRuns_append,
            countValid_modelTo, countValid_set_trace,
            hzRv, hzIv, hmF']
          have hvls : s3.valid_loader = s0.valid_loader := hvl3
          rw [hvls]
          by_cases hb : loaderTruthy s0.valid_loader = true
          · rw [if_pos hb]
            omega
          · rw [if_neg hb]
        · have hce30 : s3.current_epoch = s0.current_epoch := hce3
          rcases hdisj with ⟨hkn, hce'⟩ | ⟨hk1, hce', mv, hmv, hmve⟩
          · refine Or.inl ⟨by omega, ?_⟩
            show s4.current_epoch = s0.current_epoch + args.epochs
            omega
          · refine Or.inr ⟨hk1, ?_, mv, ?_, hmve⟩
            · show s4.current_epoch + 1 = s0.current_epoch + k
              omega
            · show ctx.cb .TRAIN_END s4.mstate = some mv
              rw [hcbt]
              exact hmv

theorem fit_epoch_schedule_witness :
    ∃ s', (fit ctxW stW argsW dsW none none none none (-1)).1 = .ok s'
      ∧ ∃ k, k ≤ argsW.epochs
        ∧ countTrainEpochRuns
            (fit ctxW stW argsW dsW none none none none (-1)).2 = k
        ∧ countValidEpochRuns
            (fit ctxW stW argsW dsW none none none none (-1)).2
          = (if loaderTruthy stW.valid_loader then k else 0)
        ∧ ((k = argsW.epochs
              ∧ s'.current_epoch = stW.current_epoch + argsW.epochs)
           ∨ (1 ≤ k ∧ s'.current_epoch + 1 = stW.current_epoch + k
              ∧ ∃ mv, s'.mstate = some mv ∧ mv.value = "end")) :=
  ⟨_, rfl, fit_epoch_schedule ctxW stW argsW dsW none none none none (-1)
    (fun h => Option.noConfusion h) (fun _ => rfl) (fun _ => rfl) _ rfl⟩

/-- A state whose valid loader exists but is empty (zero batches): truthiness
of an empty `DataLoader` is `False` in Python. -/
def stVE : TezState :=
  { stW with valid_loader := some { tlW with nbatches := 0 } }

/-- Counterexample to the literal claim that validation runs exactly when a
valid loader exists: here it exists, the run succeeds and runs one train
epoch, yet validation never runs. -/
theorem fit_existing_empty_valid_loader_skips_validation :
    stVE.valid_loader.isSome = true
    ∧ (∃ s', (fit ctxW stVE argsW dsW none none none none (-1)).1
        = .ok s')
    ∧ countTrainEpochRuns
        (fit ctxW stVE argsW dsW none none none none (-1)).2 = 1
    ∧ countValidEpochRuns
        (fit ctxW stVE argsW dsW none none none none (-1)).2 = 0 :=
  ⟨rfl, ⟨_, rfl⟩, rfl, rfl⟩

theorem dictSet_keys {α : Type} (d : List (String × α)) (k : String) (v : α)
    (h : (d.lookup k).isSome) :
    (dictSet d k v).map Prod.fst = d.map Prod.fst := by
  simp only [dictSet, h, if_true, List.map_map]
  apply List.map_congr_left
  intro p _
  by_cases hp : p.1 = k <;> simp [hp]

theorem mapSet_lookup_ne {α : Type} (d : List (String × α)) (k k' : String)
    (v : α) (hne : k' ≠ k) :
    (d.map (fun p => if p.1 = k then (k, v) else p)).lookup k' = d.lookup k' := by
  have hbk : (k' == k) = false := beq_false_of_ne hne
  induction d with
  | nil => simp
  | cons p rest ih =>
    rcases p with ⟨a, b⟩
    by_cases hp : a = k
    · subst hp
      rw [List.map_cons, if_pos rfl, List.lookup_cons, List.lookup_cons]
      simp only [hbk]
      exact ih
    · rw [List.map_cons, if_neg hp, List.lookup_cons, List.lookup_cons]
      cases hkk : (k' == a) <;> simp [ih]

theorem appendOne_lookup_ne {α : Type} (d : List (String × α)) (k k' : String)
    (v : α) (hne : k' ≠ k) :
    (d ++ [(k, v)]).lookup k' = d.lookup k' := by
  have hbk : (k' == k) = false := beq_false_of_ne hne
  induction d with
  | nil => simp [List.lookup_cons, hbk]
  | cons p rest ih =>
    rcases p with ⟨a, b⟩
    rw [List.cons_append, List.lookup_cons, List.lookup_cons]
    cases hkk : (k' == a) <;> simp [ih]

theorem dictSet_lookup_ne {α : Type} (d : List (String × α)) (k k' : String)
    (v : α) (hne : k' ≠ k) :
    (dictSet d k v).lookup k' = d.lookup k' := by
  unfold dictSet
  split
  · exact mapSet_lookup_ne d k k' v hne
  · exact appendOne_lookup_ne d k k' v hne

theorem mapSet_lookup_self {α : Type} (d : List (String × α)) (k : String)
    (v : α) (h : (d.lookup k).isSome) :
    (d.map (fun p => if p.1 = k then (k, v) else p)).lookup k = some v := by
  induction d with
  | nil => simp at h
  | cons p rest ih =>
    rcases p with ⟨a, b⟩
    by_cases hp : a = k
    · subst hp
      rw [List.map_cons, if_pos rfl, List.lookup_cons]
      simp
    · rw [List.map_cons, if_neg hp, List.lookup_cons]
      have hbk : (k == a) = false := beq_false_of_ne (fun hk => hp hk.symm)
      simp only [hbk]
      apply ih
      rw [List.lookup_cons, hbk] at h
      exact h

theorem dictSet_lookup_self {α : Type} (d : List (String × α)) (k : String)
    (v : α) : (dictSet d k v).lookup k = some v := by
  unfold dictSet
  split
  case isTrue h => exact mapSet_lookup_self d k v h
  case isFalse h =>
    induction d with
    | nil => simp [List.lookup_cons]
    | cons p rest ih =>
      rcases p with ⟨a, b⟩
      rw [List.lookup_cons] at h
      rw [List.cons_append, List.lookup_cons]
      cases hkk : (k == a) with
      | true => simp [hkk] at h
      | false =>
        simp only [hkk] at h ⊢
        exact ih h

/-! ## C2: checkpoint layout -/

/-- C2: for every call to `save` with `weights_only=False`, the persisted
record is a single mapping with exactly the keys `"state_dict"` (the model
weights), `"optimizer"` (the optimizer state, or `None` when no optimizer
is set), `"scheduler"` (the scheduler state, or `None` when no scheduler
is set), `"epoch"` (the current epoch counter) and `"fp16"` (the
mixed-precision flag), in that order; with `weights_only=True` the
persisted record is exactly the raw model weight mapping and nothing
else. -/
theorem save_checkpoint_layout (ctx : Ctx) (s : TezState) :
    save ctx s false = .dictV
      [("state_dict", .sdV s.model),
       ("optimizer",
         match s.optimizer with
         | some o => SaveVal.sdV (ctx.optSD o)
         | none => SaveVal.noneV),
       ("scheduler",
         match s.scheduler with
         | some c => SaveVal.sdV (ctx.schedSD c)
         | none => SaveVal.noneV),
       ("epoch", .natV s.current_epoch),
       ("fp16", .boolV s.fp16)]
    ∧ save ctx s true = .flat (.sdV s.model) := by
  constructor
  · simp only [save, if_neg (by simp : ¬ (false = true))]
    rfl
  · rfl

/-! ## C7: three-way metrics mapping -/

/-- C7: `metrics` starts as a mapping whose keys are exactly `"train"`,
`"valid"`, `"test"`; every call to `update_metrics` writes the named
running-average values (`monitor`) and the running-average loss into the
sub-mapping selected by the current model-lifecycle state, leaves the key
set unchanged, and leaves every other sub-mapping unchanged. -/
theorem update_metrics_three_way (s : TezState) (losses : AverageMeter)
    (monitor : MDict) (ms : ModelState) (sub : MDict)
    (hms : s.mstate = some ms)
    (hsub : s.metrics.lookup ms.value = some sub) :
    initState.metrics.map Prod.fst = ["train", "valid", "test"]
    ∧ update_metrics s losses monitor = .ok { s with
        metrics := dictSet s.metrics ms.value
          (dictSet (dictUpdate sub monitor) "loss" losses.avg) }
    ∧ (dictSet s.metrics ms.value
        (dictSet (dictUpdate sub monitor) "loss" losses.avg)).map Prod.fst
      = s.metrics.map Prod.fst
    ∧ (dictSet s.metrics ms.value
        (dictSet (dictUpdate sub monitor) "loss" losses.avg)).lookup ms.value
      = some (dictSet (dictUpdate sub monitor) "loss" losses.avg)
    ∧ ∀ k, k ≠ ms.value →
        (dictSet s.metrics ms.value
          (dictSet (dictUpdate sub monitor) "loss" losses.avg)).lookup k
        = s.metrics.lookup k := by
  refine ⟨rfl, ?_, ?_, ?_, ?_⟩
  · simp only [update_metrics, hms, dictGet, hsub]
  · exact dictSet_keys _ _ _ (by rw [hsub]; rfl)
  · exact dictSet_lookup_self _ _ _
  · intro k hk
    exact dictSet_lookup_ne _ _ _ _ hk

/-- Witness for C7 at a concrete input: lifecycle state TRAIN, one monitor
entry, running-average loss `3/2`. -/
theorem update_metrics_three_way_witness :
    ({ initState with mstate := some ModelState.TRAIN } : TezState).mstate
      = some ModelState.TRAIN
    ∧ ({ initState with mstate := some ModelState.TRAIN } :
        TezState).metrics.lookup (ModelState.TRAIN.value) = some []
    ∧ (initState.metrics.map Prod.fst = ["train", "valid", "test"]
      ∧ update_metrics { initState with mstate := some ModelState.TRAIN }
          (AverageMeter.new.update 3 2) [("acc", 1)]
        = .ok { ({ initState with mstate := some ModelState.TRAIN } : TezState) with
            metrics := dictSet ({ initState with
                mstate := some ModelState.TRAIN } : TezState).metrics
              (ModelState.TRAIN.value)
              (dictSet (dictUpdate [] [("acc", 1)]) "loss"
                (AverageMeter.new.update 3 2).avg) }
      ∧ (dictSet ({ initState with mstate := some ModelState.TRAIN } :
            TezState).metrics (ModelState.TRAIN.value)
          (dictSet (dictUpdate [] [("acc", 1)]) "loss"
            (AverageMeter.new.update 3 2).avg)).map Prod.fst
        = ({ initState with mstate := some ModelState.TRAIN } :
            TezState).metrics.map Prod.fst
      ∧ (dictSet ({ initState with mstate := some ModelState.TRAIN } :
            TezState).metrics (ModelState.TRAIN.value)
          (dictSet (dictUpdate [] [("acc", 1)]) "loss"
            (AverageMeter.new.update 3 2).avg)).lookup (ModelState.TRAIN.value)
        = some (dictSet (dictUpdate [] [("acc", 1)]) "loss"
            (AverageMeter.new.update 3 2).avg)
      ∧ ∀ k, k ≠ ModelState.TRAIN.value →
          (dictSet ({ initState with mstate := some ModelState.TRAIN } :
              TezState).metrics (ModelState.TRAIN.value)
            (dictSet (dictUpdate [] [("acc", 1)]) "loss"
              (AverageMeter.new.update 3 2).avg)).lookup k
          = ({ initState with mstate := some ModelState.TRAIN } :
              TezState).metrics.lookup k) :=
  ⟨rfl, rfl,
    update_metrics_three_way { initState with mstate := some ModelState.TRAIN }
      (AverageMeter.new.update 3 2) [("acc", 1)] ModelState.TRAIN [] rfl rfl⟩

/-! ## Characterization of the step functions -/

theorem model_fn_ok (ctx : Ctx) (s : TezState) (data : Nat) (q : ℚ)
    (hq : ctx.lossOf data = .ok q)
    (hdc : s.local_rank = -1 → ∃ dc, s.device_count = some dc) :
    ∃ L, model_fn ctx s data = (.ok (L, ([] : MDict)), [.forward data s.fp16]) := by
  by_cases hlr : s.local_rank = -1
  · obtain ⟨dc, hdcv⟩ := hdc hlr
    by_cases h1 : dc > 1
    · exact ⟨ctx.meanQ q, by
        simp [model_fn, dp_mean_loss, hq, hlr, hdcv, h1, emitE, liftE, ofOption,
          TM.bind_ok, TM.pure_eq]⟩
    · exact ⟨q, by
        simp [model_fn, dp_mean_loss, hq, hlr, hdcv, h1, emitE, liftE, ofOption,
          TM.bind_ok, TM.pure_eq]⟩
  · exact ⟨q, by
      simp [model_fn, dp_mean_loss, hq, hlr, emitE, liftE, ofOption,
        TM.bind_ok, TM.pure_eq]⟩

set_option maxHeartbeats 1600000 in
theorem train_one_step_char (ctx : Ctx) (s : TezState) (data : Nat) (L : ℚ)
    (hk : 1 ≤ s.accumulation_steps)
    (hL : model_fn ctx s data = (.ok (L, ([] : MDict)), [.forward data s.fp16]))
    (ho : s.optimizer.isSome = true)
    (hsc : s.fp16 = true → s.scaler = true)
    (hmet : s.step_scheduler_metric = none) :
    train_one_step ctx s data =
      (.ok (L / (s.accumulation_steps : ℚ), ([] : MDict)),
       (if s.accumulation_steps = 1 ∧ s.batch_index = 0
        then [Ev.modelZeroGrad] else [])
       ++ [Ev.forward data s.fp16]
       ++ (if s.fp16
           then [Ev.scalerBackward (L / (s.accumulation_steps : ℚ))]
           else [Ev.backward (L / (s.accumulation_steps : ℚ))])
       ++ (match s.clip_grad_norm with
           | some c => [Ev.clipGrad c]
           | none => [])
       ++ (if Int.fmod ((s.batch_index : Int) + 1) s.accumulation_steps = 0
           then
             (if s.fp16 then [Ev.scalerStep, Ev.scalerUpdate]
              else if s.using_tpu then [Ev.xmOptStep] else [Ev.optStep])
             ++ (if s.scheduler.isSome
                    ∧ s.step_scheduler_after = some "batch"
                 then [Ev.schedStep none] else [])
             ++ (if s.batch_index > 0 then [Ev.modelZeroGrad] else [])
           else [])) := by
  have hkne : s.accumulation_steps ≠ 0 := by omega
  by_cases hf : s.fp16 = true
  · have hscl := hsc hf
    rcases hclip : s.clip_grad_norm with _ | c <;>
      by_cases h1 : s.accumulation_steps = 1 ∧ s.batch_index = 0 <;>
      by_cases hm0 : Int.fmod ((s.batch_index : Int) + 1)
        s.accumulation_steps = 0 <;>
      by_cases hs1 : s.scheduler.isSome = true <;>
      by_cases hs2 : s.step_scheduler_after = some "batch" <;>
      by_cases hbi : s.batch_index > 0 <;>
      simp only [train_one_step, zero_grad_if_first, backward_pass, clip_grad,
        optimizer_step, scheduler_batch_step, apply_opt_step,
        hL, hclip, h1, hm0, hs1, hs2, hbi, hf, hscl,
        ho, hmet, hkne, pyMod, emitE, liftE, ofOption, throwT,
        TM.bind_ok, TM.bind_err, TM.pure_eq, reduceIte, decide_True,
        decide_False, ite_true, ite_false, and_true, true_and, and_false,
        false_and, not_true, not_false_iff, eq_self_iff_true,
        List.append_assoc, List.nil_append, List.append_nil,
        List.cons_append, List.singleton_append, if_true, if_false,
        Bool.true_eq_false, Bool.false_eq_true, Option.isSome_some,
        Option.isSome_none, not_false_eq_true] <;> rfl
  · rcases hclip : s.clip_grad_norm with _ | c <;>
      by_cases h1 : s.accumulation_steps = 1 ∧ s.batch_index = 0 <;>
      by_cases hm0 : Int.fmod ((s.batch_index : Int) + 1)
        s.accumulation_steps = 0 <;>
      by_cases htpu : s.using_tpu = true <;>
      by_cases hs1 : s.scheduler.isSome = true <;>
      by_cases hs2 : s.step_scheduler_after = some "batch" <;>
      by_cases hbi : s.batch_index > 0 <;>
      simp only [train_one_step, zero_grad_if_first, backward_pass, clip_grad,
        optimizer_step, scheduler_batch_step, apply_opt_step,
        hL, hclip, h1, hm0, htpu, hs1, hs2, hbi, hf,
        ho, hmet, hkne, pyMod, emitE, liftE, ofOption, throwT,
        TM.bind_ok, TM.bind_err, TM.pure_eq, reduceIte, decide_True,
        decide_False, ite_true, ite_false, and_true, true_and, and_false,
        false_and, not_true, not_false_iff, eq_self_iff_true,
        List.append_assoc, List.nil_append, List.append_nil,
        List.cons_append, List.singleton_append, if_true, if_false,
        Bool.true_eq_false, Bool.false_eq_true, Option.isSome_some,
        Option.isSome_none, not_false_eq_true] <;> rfl

set_option maxHeartbeats 1600000 in
/-- Characterization of `_init_tez` when both loaders are already built (or
no validation dataset is given): no loader construction happens, so the
`n_jobs` local is never read, and the resulting state and trace are
explicit. -/
theorem init_tez_char (ctx : Ctx) (s : TezState) (args : TezConfig)
    (td : Dataset) (vd : Option Dataset) (ts vs : Option Nat)
    (cbs : Option (List Nat)) (tl : Loader)
    (htl : s.train_loader = some tl)
    (hvl : (∃ vl, s.valid_loader = some vl)
      ∨ (s.valid_loader = none ∧ vd = none)) :
    _init_tez ctx s args td vd ts vs cbs =
      (.ok { s with
        train_sampler :=
          if s.local_rank = -1 then ts
          else if ts = none then some ctx.distSampler else ts,
        valid_sampler := vs,
        accumulation_steps := args.accumulation_steps,
        clip_grad_norm := args.clip_grad_norm,
        device_count := some ctx.cudaDeviceCount,
        optimizer :=
          if s.optimizer = none then ctx.fetchOptimizer else s.optimizer,
        scheduler :=
          if s.scheduler = none then ctx.fetchScheduler else s.scheduler,
        fp16 := args.fp16,
        scaler := if args.fp16 then true else s.scaler,
        callback_runner := true,
        tstate := some .TRAIN_START,
        mstate := ctx.cb .TRAIN_START s.mstate },
       (if s.local_rank = -1 then
          (if ctx.cudaDeviceCount > 1 then [Ev.wrapDP] else [])
        else
          [Ev.initProcessGroup, Ev.wrapDDP]
          ++ (if ts = none then [Ev.mkDistSampler] else []))
       ++ (if args.fp16 then [Ev.mkScaler] else [])
       ++ [Ev.assignTrain .TRAIN_START, Ev.cbRun .TRAIN_START]) := by
  rcases hvl with ⟨vl, hvl⟩ | ⟨hvl, hvd⟩
  · by_cases hlr : s.local_rank = -1 <;>
      by_cases hcud : ctx.cudaDeviceCount > 1 <;>
      by_cases hts : ts = none <;>
      by_cases hopt : s.optimizer = none <;>
      by_cases hsched : s.scheduler = none <;>
      by_cases hfp : args.fp16 = true <;>
      simp only [_init_tez, wrap_model_dist, build_train_loader,
        build_valid_loader, attach_default_optimizer,
        attach_default_scheduler, make_scaler, setTrainState, htl, hvl, hlr, hcud, hts, hopt,
        hsched, hfp, emitE, liftE, ofOption, throwT, TM.bind_ok, TM.bind_err,
        TM.pure_eq, reduceIte, ite_true, ite_false, if_true, if_false,
        reduceCtorEq, Option.some.injEq, List.append_assoc, List.nil_append,
        List.append_nil, List.cons_append, List.singleton_append,
        not_false_eq_true, eq_self_iff_true] <;> rfl
  · by_cases hlr : s.local_rank = -1 <;>
      by_cases hcud : ctx.cudaDeviceCount > 1 <;>
      by_cases hts : ts = none <;>
      by_cases hopt : s.optimizer = none <;>
      by_cases hsched : s.scheduler = none <;>
      by_cases hfp : args.fp16 = true <;>
      simp only [_init_tez, wrap_model_dist, build_train_loader,
        build_valid_loader, attach_default_optimizer,
        attach_default_scheduler, make_scaler, setTrainState, htl, hvl, hvd, hlr, hcud, hts, hopt,
        hsched, hfp, emitE, liftE, ofOption, throwT, TM.bind_ok, TM.bind_err,
        TM.pure_eq, reduceIte, ite_true, ite_false, if_true, if_false,
        reduceCtorEq, Option.some.injEq, List.append_assoc, List.nil_append,
        List.append_nil, List.cons_append, List.singleton_append,
        not_false_eq_true, eq_self_iff_true] <;> rfl

/-! ## Observation-pushing lemmas -/

theorem bwdPayloads_append (t1 t2 : List Ev) :
    bwdPayloads (t1 ++ t2) = bwdPayloads t1 ++ bwdPayloads t2 := by
  simp [bwdPayloads]

theorem countOptSteps_append (t1 t2 : List Ev) :
    countOptSteps (t1 ++ t2) = countOptSteps t1 + countOptSteps t2 := by
  simp [countOptSteps]

theorem countSchedSteps_append (t1 t2 : List Ev) :
    countSchedSteps (t1 ++ t2) = countSchedSteps t1 + countSchedSteps t2 := by
  simp [countSchedSteps]

theorem bwdPayloads_ite (c : Prop) [Decidable c] (t1 t2 : List Ev) :
    bwdPayloads (if c then t1 else t2)
      = if c then bwdPayloads t1 else bwdPayloads t2 := by
  split <;> rfl

theorem countOptSteps_ite (c : Prop) [Decidable c] (t1 t2 : List Ev) :
    countOptSteps (if c then t1 else t2)
      = if c then countOptSteps t1 else countOptSteps t2 := by
  split <;> rfl

theorem countSchedSteps_ite (c : Prop) [Decidable c] (t1 t2 : List Ev) :
    countSchedSteps (if c then t1 else t2)
      = if c then countSchedSteps t1 else countSchedSteps t2 := by
  split <;> rfl

/-- The Python test `(batch_index + 1) % accumulation_steps == 0` (floor
modulus on ints) agrees with natural-number modulus for a positive
accumulation count. -/
theorem fmod_cond_iff (i : Nat) (k : Int) (hk : 1 ≤ k) :
    Int.fmod ((i : Int) + 1) k = 0 ↔ (i + 1) % k.toNat = 0 := by
  have hk0 : (0 : Int) ≤ k := by omega
  have hkt : ((k.toNat : Nat) : Int) = k := Int.toNat_of_nonneg hk0
  have hcast : ((i : Int) + 1) = ((i + 1 : Nat) : Int) := by push_cast; ring
  rw [hcast, ← hkt, ← Int.ofNat_fmod]
  exact Int.natCast_eq_zero

/-! ## C4: gradient accumulation -/

/-- C4: for every training step with `accumulation_steps = k ≥ 1` (and a
well-formed collaborator setup), `train_one_step` divides the batch loss by
`k` before the backward pass — the only backward pass of the step carries
`L / k` — and invokes the optimizer step (and the per-batch scheduler step,
when a scheduler is configured with `step_scheduler_after = "batch"`)
exactly on batches whose index `i` satisfies `(i + 1) % k = 0`. -/
theorem train_one_step_accumulation (ctx : Ctx) (s : TezState) (data : Nat)
    (q : ℚ)
    (hk : 1 ≤ s.accumulation_steps)
    (hq : ctx.lossOf data = .ok q)
    (hdc : s.local_rank = -1 → ∃ dc, s.device_count = some dc)
    (ho : s.optimizer.isSome = true)
    (hsc : s.fp16 = true → s.scaler = true)
    (hmet : s.step_scheduler_metric = none) :
    ∃ L,
      model_fn ctx s data = (.ok (L, ([] : MDict)), [.forward data s.fp16])
      ∧ (train_one_step ctx s data).1
        = .ok (L / (s.accumulation_steps : ℚ), ([] : MDict))
      ∧ bwdPayloads (train_one_step ctx s data).2
        = [L / (s.accumulation_steps : ℚ)]
      ∧ countOptSteps (train_one_step ctx s data).2
        = (if (s.batch_index + 1) % s.accumulation_steps.toNat = 0
           then 1 else 0)
      ∧ countSchedSteps (train_one_step ctx s data).2
        = (if (s.batch_index + 1) % s.accumulation_steps.toNat = 0
              ∧ s.scheduler.isSome = true
              ∧ s.step_scheduler_after = some "batch"
           then 1 else 0) := by
  obtain ⟨L, hL⟩ := model_fn_ok ctx s data q hq hdc
  have hiff := fmod_cond_iff s.batch_index s.accumulation_steps hk
  have hchar := train_one_step_char ctx s data L hk hL ho hsc hmet
  refine ⟨L, hL, ?_, ?_, ?_, ?_⟩
  · rw [hchar]
  · rw [hchar]
    rcases hclip : s.clip_grad_norm with _ | c <;>
      simp only [hclip, bwdPayloads_append, bwdPayloads_ite] <;>
      simp [bwdPayloads, ite_self]
  · rw [hchar]
    rcases hclip : s.clip_grad_norm with _ | c <;>
      by_cases hm : (s.batch_index + 1) % s.accumulation_steps.toNat = 0 <;>
      simp only [hclip, countOptSteps_append, countOptSteps_ite] <;>
      simp [countOptSteps, isOptStepEv, ite_self, hiff, hm]
  · rw [hchar]
    rcases hclip : s.clip_grad_norm with _ | c <;>
      by_cases hm : (s.batch_index + 1) % s.accumulation_steps.toNat = 0 <;>
      by_cases hsch : s.scheduler.isSome = true
        ∧ s.step_scheduler_after = some "batch" <;>
      simp only [hclip, countSchedSteps_append, countSchedSteps_ite] <;>
      simp [countSchedSteps, ite_self, hiff, hm, hsch]

/-- Witness for C4 at a concrete input: `k = 2`, batch index 1, so
`(1 + 1) % 2 = 0` and exactly one optimizer step fires on a loss divided
by 2. -/
theorem train_one_step_accumulation_witness :
    (1 ≤ stW2.accumulation_steps ∧ ctxW.lossOf 7 = .ok 1
      ∧ stW2.optimizer.isSome = true ∧ stW2.step_scheduler_metric = none)
    ∧ (∃ L,
        model_fn ctxW stW2 7 = (.ok (L, ([] : MDict)), [.forward 7 stW2.fp16])
        ∧ (train_one_step ctxW stW2 7).1
          = .ok (L / (stW2.accumulation_steps : ℚ), ([] : MDict))
        ∧ bwdPayloads (train_one_step ctxW stW2 7).2
          = [L / (stW2.accumulation_steps : ℚ)]
        ∧ countOptSteps (train_one_step ctxW stW2 7).2
          = (if (stW2.batch_index + 1) % stW2.accumulation_steps.toNat = 0
             then 1 else 0)
        ∧ countSchedSteps (train_one_step ctxW stW2 7).2
          = (if (stW2.batch_index + 1) % stW2.accumulation_steps.toNat = 0
                ∧ stW2.scheduler.isSome = true
                ∧ stW2.step_scheduler_after = some "batch"
             then 1 else 0)) :=
  ⟨⟨by decide, rfl, rfl, rfl⟩,
    train_one_step_accumulation ctxW stW2 7 1 (by decide) rfl
      (fun _ => ⟨1, rfl⟩) rfl (fun h => absurd h (by decide)) rfl⟩

/-! ## C10: zero accumulation steps -/

/-- C10: `train_one_step` is well-defined only under the precondition
`accumulation_steps ≥ 1`.  The field's dataclass default is 0;
`_init_tez` (hence `fit`) installs `args.accumulation_steps` without any
correction; and with `accumulation_steps = 0` the step fails with
`ZeroDivisionError` on every batch index (the Python `%` with a zero
divisor raises; the loss "division by zero" itself is a torch tensor
operation that silently yields `inf` and is immaterial to the failure). -/
theorem accumulation_zero_fails (ctx : Ctx) (s s0 : TezState) (data : Nat)
    (args : TezConfig) (td : Dataset) (vd : Option Dataset)
    (ts vs : Option Nat) (cbs : Option (List Nat)) (tl : Loader) (q : ℚ)
    (hacc : s.accumulation_steps = 0)
    (hq : ctx.lossOf data = .ok q)
    (hdc : s.local_rank = -1 → ∃ dc, s.device_count = some dc)
    (hsc : s.fp16 = true → s.scaler = true)
    (htl : s0.train_loader = some tl)
    (hvl : (∃ vl, s0.valid_loader = some vl)
      ∨ (s0.valid_loader = none ∧ vd = none)) :
    initState.accumulation_steps = 0
    ∧ (∀ s', (_init_tez ctx s0 args td vd ts vs cbs).1 = .ok s' →
        s'.accumulation_steps = args.accumulation_steps)
    ∧ (train_one_step ctx s data).1 = .error .zeroDivisionError := by
  refine ⟨rfl, ?_, ?_⟩
  · intro s' h
    rw [init_tez_char ctx s0 args td vd ts vs cbs tl htl hvl] at h
    cases h
    rfl
  · obtain ⟨L, hL⟩ := model_fn_ok ctx s data q hq hdc
    have h01 : ((0 : Int) = 1) = False := eq_false (by decide)
    by_cases hf : s.fp16 = true
    · have hscl := hsc hf
      rcases hclip : s.clip_grad_norm with _ | c <;>
        simp only [train_one_step, zero_grad_if_first, backward_pass, clip_grad,
          optimizer_step, scheduler_batch_step, apply_opt_step,
          hL, hacc, h01, hclip, hf, hscl, pyMod,
          emitE, liftE, ofOption, throwT, TM.bind_ok, TM.bind_err, TM.pure_eq,
          reduceIte, ite_true, ite_false, if_true, if_false, and_false,
          false_and, not_false_eq_true, eq_self_iff_true] <;> rfl
    · rcases hclip : s.clip_grad_norm with _ | c <;>
        simp only [train_one_step, zero_grad_if_first, backward_pass, clip_grad,
          optimizer_step, scheduler_batch_step, apply_opt_step,
          hL, hacc, h01, hclip, hf, pyMod,
          emitE, liftE, ofOption, throwT, TM.bind_ok, TM.bind_err, TM.pure_eq,
          reduceIte, ite_true, ite_false, if_true, if_false, and_false,
          false_and, not_false_eq_true, eq_self_iff_true] <;> rfl

/-- Witness for C10 at a concrete input: the default-valued
`accumulation_steps = 0` state fails on batch 0, and `_init_tez` copies the
configured value verbatim. -/
theorem accumulation_zero_fails_witness :
    (stZ.accumulation_steps = 0 ∧ ctxW.lossOf 0 = .ok 1
      ∧ stW.train_loader = some tlW)
    ∧ (initState.accumulation_steps = 0
      ∧ (∀ s', (_init_tez ctxW stW argsW dsW none none none none).1
          = .ok s' → s'.accumulation_steps = argsW.accumulation_steps)
      ∧ (train_one_step ctxW stZ 0).1 = .error .zeroDivisionError) :=
  ⟨⟨rfl, rfl, rfl⟩,
    accumulation_zero_fails ctxW stZ stW 0 argsW dsW none none none none tlW 1
      rfl rfl (fun _ => ⟨1, rfl⟩) (fun h => absurd h (by decide)) rfl
      (Or.inl ⟨tlW, rfl⟩)⟩
